import Mathlib

/-
Verification of the last30days multi-source aggregation pipeline.

This file gives a shallow embedding, in Lean 4, of the parts of the
repository that the specification's claims are about:

  * scripts/lib/twitterapi_x.py   (social adapter: query builder, paginated
    search, date parsing, relevance scoring, response parsing)
  * scripts/lib/openai_reddit.py  (discussion adapter: validate-and-clean
    loop of parse_reddit_response)
  * scripts/lib/dailydev.py       (article adapter: search limit, relevance
    scoring, response parsing)
  * scripts/lib/tubelab_yt.py     (video adapter: search limit, relevance
    scoring, response parsing)
  * scripts/last30days.py         (orchestrator: the reddit recall-boost
    retry logic of _search_reddit, and the call shapes used for each
    adapter's search function)

Modelling conventions:

  * Decoded JSON / Python objects are modelled by the inductive type `Json`
    (numbers as rationals).  A Python dict is a key/value list; duplicate
    keys do not arise in the inputs considered.
  * Python's `None` and JSON `null` coincide (as they do in Python after
    `json.loads`), both are `Json.null`.
  * Fallible Python code is modelled in `Except PyErr`; `PyErr` records the
    exception class raised (TypeError / ValueError / AttributeError).
  * Python floats are modelled as exact rationals where only field plumbing
    happens, and the relevance scores (which involve `math.log1p`) live in
    `ℝ` with `log1p x = Real.log (1 + x)`.  `math.log1p` raises ValueError
    on arguments `≤ -1`; the embedding checks that domain condition on the
    rational argument before taking the real logarithm.
  * The HTTP transport (`lib/http.get`) is an opaque capability; it is an
    explicit oracle parameter of the functions that use it.
-/

namespace L30

/-- A decoded JSON value / Python object, as produced by `json.loads`.
Numbers are rationals (covering both Python ints and floats). -/
inductive Json where
  | null
  | bool (b : Bool)
  | num (q : ℚ)
  | str (s : String)
  | arr (xs : List Json)
  | obj (kvs : List (String × Json))

/-- A Python dict with string keys, e.g. an API response. -/
abbrev Dict := List (String × Json)

/-- Python exception classes that the embedded code can raise. -/
inductive PyErr where
  | typeError
  | valueError
  | attributeError
deriving DecidableEq, Repr

/-- Python `d.get(k, default)` on a dict: first binding of `k`, else the
default. -/
def dictGet (d : Dict) (k : String) (dflt : Json) : Json :=
  match d.lookup k with
  | some v => v
  | none => dflt

/-- Python truthiness of a decoded JSON value: `None`, `False`, `0`, `""`,
`[]` and `{}` are falsy, everything else is truthy. -/
def pyTruthy : Json → Bool
  | .null => false
  | .bool b => b
  | .num q => decide (q ≠ 0)
  | .str s => !s.isEmpty
  | .arr xs => !xs.isEmpty
  | .obj kvs => !kvs.isEmpty

/-- Python `a or b` (value-returning, short-circuit). -/
def pyOr (a b : Json) : Json :=
  if pyTruthy a then a else b

/-- Python `s.strip()`: remove leading and trailing whitespace. -/
def pyStrip (s : String) : String :=
  String.mk (((s.toList.dropWhile Char.isWhitespace).reverse.dropWhile
    Char.isWhitespace).reverse)

mutual

/-- Python `str()` (and `repr` for nested values) of a decoded JSON value.
The container cases follow Python's bracketed rendering; no claim depends
on the exact rendering of containers, only on the string/number cases. -/
def pyStr : Json → String
  | .null => "None"
  | .bool b => cond b "True" "False"
  | .num q => if q.den = 1 then toString q.num else toString q
  | .str s => s
  | .arr xs => "[" ++ String.intercalate ", " (pyStrList xs) ++ "]"
  | .obj kvs => "\x7b" ++ String.intercalate ", " (pyStrKVList kvs) ++ "\x7d"

/-- `pyStr` mapped over a list (mutual helper). -/
def pyStrList : List Json → List String
  | [] => []
  | x :: xs => pyStr x :: pyStrList xs

/-- `pyStr` rendering of dict entries (mutual helper). -/
def pyStrKVList : List (String × Json) → List String
  | [] => []
  | (k, v) :: kvs => (k ++ ": " ++ pyStr v) :: pyStrKVList kvs

end

/-- Python `int(x)` applied to a decoded value: ints/floats truncate toward
zero, bools map to 0/1, strings are parsed (sign and digits; Python also
strips whitespace), anything else raises. -/
def pyInt : Json → Except PyErr Int
  | .bool b => .ok (if b then 1 else 0)
  | .num q => .ok (q.num.tdiv (q.den : Int))
  | .str s =>
    match (pyStrip s).toInt? with
    | some n => .ok n
    | none => .error .valueError
  | _ => .error .typeError

/-- Numeric coercion used when a decoded value appears as an operand of an
arithmetic/comparison/`math` operation: numbers and bools are numeric,
everything else raises TypeError. -/
def pyNum : Json → Except PyErr ℚ
  | .bool b => .ok (if b then 1 else 0)
  | .num q => .ok q
  | _ => .error .typeError

/-- Decimal-string parser backing Python `float(str)`: optional sign,
integer part, optional fractional part.  (Scientific notation and
inf/nan are not modelled; no claim exercises them.) -/
def parseDecimal (s : String) : Option ℚ :=
  let t := pyStrip s
  let (neg, u) :=
    if t.startsWith "-" then (true, t.drop 1)
    else if t.startsWith "+" then (false, t.drop 1)
    else (false, t)
  match u.splitOn "." with
  | [ip] =>
    (ip.toNat?).map (fun n => if neg then -(n : ℚ) else (n : ℚ))
  | [ip, fp] =>
    if ip.isEmpty && fp.isEmpty then none
    else
      let ipn := if ip.isEmpty then some 0 else ip.toNat?
      let fpn := if fp.isEmpty then some 0 else fp.toNat?
      match ipn, fpn with
      | some a, some b =>
        let v : ℚ := (a : ℚ) + (b : ℚ) / (10 ^ fp.length : ℕ)
        some (if neg then -v else v)
      | _, _ => none
  | _ => none

/-- Python `float(x)` applied to a decoded value. -/
def pyFloat : Json → Except PyErr ℚ
  | .bool b => .ok (if b then 1 else 0)
  | .num q => .ok q
  | .str s =>
    match parseDecimal s with
    | some q => .ok q
    | none => .error .valueError
  | _ => .error .typeError

/-- Whether the character list `hay` contains `needle` as a contiguous
sublist (Python `needle in hay` on strings). -/
def charsContain (needle : List Char) : List Char → Bool
  | [] => needle.isEmpty
  | c :: rest => needle.isPrefixOf (c :: rest) || charsContain needle rest

/-- Python `needle in hay` for strings. -/
def strContains (hay needle : String) : Bool :=
  charsContain needle.toList hay.toList

/-- Python `needle in x` where `x` is a decoded value: substring test when
`x` is a string, TypeError otherwise (the embedded code only uses it with
string needles). -/
def pyInStr (needle : String) : Json → Except PyErr Bool
  | .str s => .ok (strContains s needle)
  | _ => .error .typeError

/-- Python `s.lstrip(chars)`: drop leading characters belonging to the
given set. -/
def lstripSet (cs : List Char) (s : String) : String :=
  String.mk (s.toList.dropWhile (fun c => cs.contains c))

/-- Python `len(x)` on a decoded value: defined for strings, lists and
dicts, TypeError otherwise. -/
def pyLen : Json → Except PyErr Nat
  | .str s => .ok s.length
  | .arr xs => .ok xs.length
  | .obj kvs => .ok kvs.length
  | _ => .error .typeError

/-- Python `x[:10]` on a decoded value: slices strings and lists; slicing a
dict raises TypeError (unhashable slice), as does slicing a number. -/
def pySlice10 : Json → Except PyErr Json
  | .str s => .ok (.str (s.take 10))
  | .arr xs => .ok (.arr (xs.take 10))
  | _ => .error .typeError

/-- The elements obtained by iterating a decoded value (`enumerate`,
`list.extend`): a list yields its elements, a string its characters, a
dict its keys; numbers/bools/None are not iterable. -/
def jsonElems : Json → Except PyErr (List Json)
  | .arr xs => .ok xs
  | .str s => .ok (s.toList.map (fun c => Json.str (String.mk [c])))
  | .obj kvs => .ok (kvs.map (fun kv => Json.str kv.1))
  | _ => .error .typeError

/-- Python `x.get(k, default)` where `x` is a decoded value that the code
did not isinstance-check: works on dicts, raises AttributeError
otherwise. -/
def pyGetAttrGet (x : Json) (k : String) (dflt : Json) : Except PyErr Json :=
  match x with
  | .obj kvs => .ok (dictGet kvs k dflt)
  | _ => .error .attributeError

/-- Regex `^\d{4}-\d{2}-\d{2}$` from `parse_reddit_response`'s date
validation: exactly four digits, dash, two digits, dash, two digits. -/
def matchYMDall (s : String) : Bool :=
  match s.toList with
  | [a, b, c, d, '-', e, f, '-', g, h] =>
    ([a, b, c, d, e, f, g, h].all Char.isDigit)
  | _ => false

/-- Regex `^(\d{4})-(\d{2})-(\d{2})` from `_parse_created_at` (prefix
match): on success, returns the ten-character date prefix, as the Python
code rebuilds it from the three groups. -/
def matchYMDpre (s : String) : Option String :=
  match s.toList with
  | a :: b :: c :: d :: '-' :: e :: f :: '-' :: g :: h :: _ =>
    if [a, b, c, d, e, f, g, h].all Char.isDigit then
      some (String.mk [a, b, c, d, '-', e, f, '-', g, h])
    else none
  | _ => none

/-- Python `math.log1p` on an (exact rational) argument: ValueError on the
domain `x ≤ -1`, otherwise `log (1 + x)`. -/
noncomputable def pyLog1p (q : ℚ) : Except PyErr ℝ :=
  if q ≤ -1 then .error .valueError else .ok (Real.log (1 + (q : ℝ)))

/-- `math.log1p` applied directly to a decoded value (numeric coercion then
domain check). -/
noncomputable def pyLog1pJ (j : Json) : Except PyErr ℝ := do
  let q ← pyNum j
  pyLog1p q

/-! ### scripts/lib/twitterapi_x.py -/

/-- `DEPTH_CONFIG` of twitterapi_x.py: depth tier to `(min_faves,
max_pages)`. -/
def X_DEPTH_CONFIG : List (String × (Nat × Nat)) :=
  [("quick", (5, 1)), ("default", (3, 2)), ("deep", (2, 3))]

/-- `DEPTH_CONFIG.get(depth, DEPTH_CONFIG["default"])`: lookup with the
`"default"` entry `(3, 2)` as fallback. -/
def xDepthGet (depth : String) : Nat × Nat :=
  match X_DEPTH_CONFIG.lookup depth with
  | some c => c
  | none => (3, 2)

/-- `build_query(topic, from_date, to_date, depth)` of twitterapi_x.py
(the Python default for `depth` is `"default"`). -/
def build_query (topic from_date to_date : String)
    (depth : String) : String :=
  let min_faves := (xDepthGet depth).1
  topic ++ " since:" ++ from_date ++ " until:" ++ to_date ++
    " lang:en -filter:retweets min_faves:" ++ toString min_faves

/-- Errors escaping `search_x`: an HTTP transport error re-raised from the
first page, or a non-HTTP Python error from processing a response. -/
inductive XErr where
  | http
  | py (e : PyErr)
deriving DecidableEq, Repr

/-- The pagination loop of `search_x`.  `fetch q page cursor` is the opaque
transport capability `http.get` for the request the loop builds on the
given page with the given cursor (`Json.null` models "no cursor");
`.error` is an `http.HTTPError`.  Note only HTTPError is caught, and only
for `page > 0`. -/
def searchXLoop (fetch : String → Nat → Json → Except Unit Dict)
    (query : String) : Nat → Nat → Json → List Json →
    Except XErr (List Json)
  | 0, _, _, acc => .ok acc
  | rem + 1, page, cursor, acc =>
    match fetch query page cursor with
    | .error _ => if page = 0 then .error .http else .ok acc
    | .ok response =>
      let tweets := dictGet response "tweets" (.arr [])
      if pyTruthy tweets = false then .ok acc
      else
        match jsonElems tweets with
        | .error e => .error (.py e)
        | .ok xs =>
          let acc1 := acc ++ xs
          if pyTruthy (dictGet response "has_next_page" .null) = false then
            .ok acc1
          else
            let cursor1 := dictGet response "next_cursor" .null
            if pyTruthy cursor1 = false then .ok acc1
            else searchXLoop fetch query rem (page + 1) cursor1 acc1

/-- `search_x(api_key, topic, from_date, to_date, depth)` of
twitterapi_x.py with the transport as an explicit oracle (the
`mock_response` short-circuit is omitted: it returns its argument
unchanged).  Returns `{"tweets": all_tweets}`. -/
def search_x (fetch : String → Nat → Json → Except Unit Dict)
    (topic from_date to_date : String) (depth : String) :
    Except XErr Dict :=
  (searchXLoop fetch (build_query topic from_date to_date depth)
    (xDepthGet depth).2 0 .null []).map
    (fun ts => [("tweets", Json.arr ts)])

/-- Zero-padded rendering `%Y-%m-%d` of a strptime result (year below
10000, as `%Y` consumes at most four digits). -/
def digitChar (n : Nat) : Char := Char.ofNat (48 + n % 10)

/-- Formats year/month/day as the ten-character `YYYY-MM-DD` string that
`dt.strftime("%Y-%m-%d")` produces. -/
def fmtYMD (y m d : Nat) : String :=
  String.mk [digitChar (y / 1000), digitChar (y / 100), digitChar (y / 10),
    digitChar y, '-', digitChar (m / 10), digitChar m, '-',
    digitChar (d / 10), digitChar d]

/-- `_parse_created_at(created_at)` of twitterapi_x.py.  The stdlib
`datetime.strptime(s, "%a %b %d %H:%M:%S %z %Y")` is the oracle `twFmt`,
returning the parsed year/month/day on success (year ≤ 9999 since `%Y`
consumes at most four digits; month and day are validated by `datetime`). -/
def x_parse_created_at (twFmt : String → Option (Fin 10000 × Fin 13 × Fin 32))
    (j : Json) : Option String :=
  match j with
  | .str s =>
    if s.isEmpty then none
    else
      let t := pyStrip s
      match matchYMDpre t with
      | some d => some d
      | none =>
        match twFmt t with
        | some (y, m, d) => some (fmtYMD y.val m.val d.val)
        | none => none
  | _ => none

/-- `ENGAGEMENT_WEIGHTS` of twitterapi_x.py. -/
def X_WEIGHTS : ℚ × ℚ × ℚ × ℚ := (55/100, 25/100, 15/100, 5/100)

/-- `_compute_relevance(position, total, tweet)` of twitterapi_x.py:
60% position weight, 40% log-scaled engagement weight.  Each engagement
term is `log1p(max(0, tweet.get(key, 0) or 0))`; the `max` comparison
performs Python's numeric coercion (TypeError on non-numbers). -/
noncomputable def x_compute_relevance (position total : Nat)
    (tweet : Dict) : Except PyErr ℝ := do
  let position_score : ℝ :=
    if total ≤ 1 then 1
    else 1 - (1/2) * ((position : ℝ) / ((total : ℝ) - 1))
  let likesQ ← pyNum (pyOr (dictGet tweet "likeCount" (.num 0)) (.num 0))
  let likes : ℝ := Real.log (1 + (max 0 likesQ : ℚ))
  let repostsQ ← pyNum (pyOr (dictGet tweet "retweetCount" (.num 0)) (.num 0))
  let reposts : ℝ := Real.log (1 + (max 0 repostsQ : ℚ))
  let repliesQ ← pyNum (pyOr (dictGet tweet "replyCount" (.num 0)) (.num 0))
  let replies : ℝ := Real.log (1 + (max 0 repliesQ : ℚ))
  let quotesQ ← pyNum (pyOr (dictGet tweet "quoteCount" (.num 0)) (.num 0))
  let quotes : ℝ := Real.log (1 + (max 0 quotesQ : ℚ))
  let raw_engagement : ℝ :=
    (X_WEIGHTS.1 : ℝ) * likes + (X_WEIGHTS.2.1 : ℝ) * reposts +
      (X_WEIGHTS.2.2.1 : ℝ) * replies + (X_WEIGHTS.2.2.2 : ℝ) * quotes
  let engagement_score : ℝ := min 1 (raw_engagement / 7)
  return (6/10 : ℝ) * position_score + (4/10 : ℝ) * engagement_score

/-- The engagement mapping of a parsed X item: the four counters coerced
with `int(x or 0)`. -/
structure XEng where
  likes : Int
  reposts : Int
  replies : Int
  quotes : Int

/-- A cleaned item produced by `parse_x_response`. -/
structure XItem where
  id : String
  text : String
  url : Json
  author_handle : String
  date : Option String
  engagement : XEng
  why_relevant : String
  relevance : ℝ

/-- The per-tweet body of the `parse_x_response` loop: `none` models
`continue`.  `i` is the enumeration index over the raw tweets list and
`total` its length. -/
noncomputable def xCleanItem (twFmt : String → Option (Fin 10000 × Fin 13 × Fin 32))
    (i total : Nat) (tweet : Json) : Except PyErr (Option XItem) :=
  match tweet with
  | .obj kvs => do
    let url0 := dictGet kvs "url" (.str "")
    let urlv : Option Json :=
      if pyTruthy url0 then some url0
      else
        let author := dictGet kvs "author" (.obj [])
        let username :=
          match author with
          | .obj akvs => dictGet akvs "userName" (.str "")
          | _ => .str ""
        let tweet_id := dictGet kvs "id" (.str "")
        if pyTruthy username && pyTruthy tweet_id then
          some (.str ("https://x.com/" ++ pyStr username ++ "/status/" ++
            pyStr tweet_id))
        else none
    match urlv with
    | none => return none
    | some url => do
      let author := dictGet kvs "author" (.obj [])
      let author_handle0 :=
        match author with
        | .obj akvs => dictGet akvs "userName" (.str "")
        | _ => .str ""
      let author_handle := lstripSet ['@'] (pyStrip (pyStr author_handle0))
      let date := x_parse_created_at twFmt (dictGet kvs "createdAt" .null)
      let likes ← pyInt (pyOr (dictGet kvs "likeCount" (.num 0)) (.num 0))
      let reposts ← pyInt (pyOr (dictGet kvs "retweetCount" (.num 0)) (.num 0))
      let replies ← pyInt (pyOr (dictGet kvs "replyCount" (.num 0)) (.num 0))
      let quotes ← pyInt (pyOr (dictGet kvs "quoteCount" (.num 0)) (.num 0))
      let relevance ← x_compute_relevance i total kvs
      return some {
        id := "X" ++ toString (i + 1)
        text := (pyStrip (pyStr (dictGet kvs "text" (.str "")))).take 500
        url := url
        author_handle := author_handle
        date := date
        engagement := ⟨likes, reposts, replies, quotes⟩
        why_relevant := ""
        relevance := min 1 (max 0 relevance) }
  | _ => return none

/-- The `for i, x in enumerate(xs)` accumulation pattern shared by all four
parse functions: the per-element body returns `none` for `continue`, and
an exception aborts the whole parse. -/
def cleanLoop {α : Type} (f : Nat → Json → Except PyErr (Option α)) :
    Nat → List Json → Except PyErr (List α)
  | _, [] => .ok []
  | i, x :: rest => do
    match ← f i x with
    | none => cleanLoop f (i + 1) rest
    | some it => return it :: (← cleanLoop f (i + 1) rest)

/-- The enumeration loop of `parse_x_response` over the raw tweets. -/
noncomputable def xCleanLoop (twFmt : String → Option (Fin 10000 × Fin 13 × Fin 32))
    (total : Nat) : Nat → List Json → Except PyErr (List XItem) :=
  cleanLoop (fun i t => xCleanItem twFmt i total t)

/-- `parse_x_response(response)` of twitterapi_x.py. -/
noncomputable def parse_x_response
    (twFmt : String → Option (Fin 10000 × Fin 13 × Fin 32))
    (response : Dict) : Except PyErr (List XItem) := do
  let tweets := dictGet response "tweets" (.arr [])
  if pyTruthy tweets = false then return []
  else do
    let xs ← jsonElems tweets
    xCleanLoop twFmt xs.length 0 xs

/-! ### scripts/lib/openai_reddit.py -/

/-- A cleaned item produced by `parse_reddit_response` (the `url` is a
string: the `"reddit.com" in url` test has already succeeded). -/
structure RedditItem where
  id : String
  title : String
  url : String
  subreddit : String
  date : Json
  why_relevant : String
  relevance : ℚ

/-- The date validation of `parse_reddit_response` (lines 152–154): a
truthy date whose `str()` does not match the shape regex is nulled;
falsy dates and shape-matching dates pass through unchanged. -/
def redditDateClean (date0 : Json) : Json :=
  if pyTruthy date0 && !matchYMDall (pyStr date0) then Json.null else date0

/-- The per-item body of the validate-and-clean loop of
`parse_reddit_response` (lines 131–158): non-dicts and items with a falsy
or non-reddit URL are skipped (`none`); a truthy non-string URL raises
TypeError at the `in` test; `float()` of a bad relevance raises; a truthy
date whose `str()` does not match the shape regex `matchYMDall` is
nulled. -/
def redditCleanItem (i : Nat) (item : Json) :
    Except PyErr (Option RedditItem) :=
  match item with
  | .obj kvs =>
    let url := dictGet kvs "url" (.str "")
    if pyTruthy url = false then .ok none
    else
      match url with
      | .str u =>
        if strContains u "reddit.com" = false then .ok none
        else do
          let rel ← pyFloat (dictGet kvs "relevance" (.num (1/2)))
          let date := redditDateClean (dictGet kvs "date" .null)
          return some {
            id := "R" ++ toString (i + 1)
            title := pyStrip (pyStr (dictGet kvs "title" (.str "")))
            url := u
            subreddit :=
              lstripSet ['r', '/'] (pyStrip (pyStr (dictGet kvs "subreddit" (.str ""))))
            date := date
            why_relevant := pyStrip (pyStr (dictGet kvs "why_relevant" (.str "")))
            relevance := min 1 (max 0 rel) }
      | _ => .error .typeError
  | _ => .ok none

/-- The enumeration loop of `parse_reddit_response` over the decoded
`items` list. -/
def redditCleanLoop : Nat → List Json → Except PyErr (List RedditItem) :=
  cleanLoop redditCleanItem

/-- `parse_reddit_response(response)` of openai_reddit.py.  Lines 88–129
(locating output text in the response, the greedy `"items"` regex and
`json.loads`) only determine which decoded entries reach the
validate-and-clean loop; they are modelled by the `extract` parameter so
that the theorems quantify over every possible extraction outcome. -/
def parse_reddit_response (extract : Dict → List Json) (response : Dict) :
    Except PyErr (List RedditItem) :=
  redditCleanLoop 0 (extract response)

/-! ### scripts/lib/dailydev.py -/

/-- `DEPTH_CONFIG` of dailydev.py: depth tier to result limit. -/
def DD_DEPTH_CONFIG : List (String × Nat) :=
  [("quick", 10), ("default", 20), ("deep", 50)]

/-- `DEPTH_CONFIG.get(depth, DEPTH_CONFIG["default"])` of
`search_dailydev`: the result limit placed in the request URL. -/
def ddLimitGet (depth : String) : Nat :=
  match DD_DEPTH_CONFIG.lookup depth with
  | some l => l
  | none => 20

/-- Position score of dailydev's `_compute_relevance`: first result 1.0,
linear decay to a floor of 0.1. -/
noncomputable def ddPosScore (position total : Nat) : ℝ :=
  if total ≤ 1 then 1
  else max (1/10) (1 - ((position : ℝ) / ((total : ℝ) - 1)) * (9/10))

/-- `_compute_relevance(position, total, post)` of dailydev.py: 50%
position, 50% log-scaled engagement normalized by 7.  The `min(…, 20)` on
`readTime` performs the first numeric coercion; then `log1p` checks
`upvotes` and `comments` in that order (Python evaluates the weighted sum
left to right). -/
noncomputable def dd_compute_relevance (position total : Nat)
    (post : Dict) : Except PyErr ℝ := do
  let pos_score := ddPosScore position total
  let rtq ← pyNum (pyOr (dictGet post "readTime" (.num 0)) (.num 0))
  let read_time : ℚ := min rtq 20
  let lup ← pyLog1pJ (pyOr (dictGet post "upvotes" (.num 0)) (.num 0))
  let lco ← pyLog1pJ (pyOr (dictGet post "comments" (.num 0)) (.num 0))
  let eng_score : ℝ :=
    (55/100 : ℝ) * lup + (40/100 : ℝ) * lco +
      (5/100 : ℝ) * (((read_time : ℝ)) / 20)
  let eng_normalized : ℝ := min 1 (eng_score / 7)
  return (1/2 : ℝ) * pos_score + (1/2 : ℝ) * eng_normalized

/-- A cleaned item produced by `parse_dailydev_response`.  Fields the code
copies without validation keep their raw decoded value. -/
structure DDItem where
  id : String
  title : String
  url : String
  source_name : Json
  author_name : Json
  author_username : Json
  date : Json
  summary : Json
  tags : Json
  read_time : Json
  engagement : Option (Json × Json)
  why_relevant : String
  relevance : ℝ

/-- Python `x.strip()` where `x` is a decoded value the code did not
type-check: strings trim, everything else raises AttributeError. -/
def pyStripJ : Json → Except PyErr String
  | .str s => .ok (pyStrip s)
  | _ => .error .attributeError

/-- The `date_str = raw[:10] if raw and len(raw) >= 10 else None` snippet
shared by `parse_dailydev_response` (createdAt) and
`parse_youtube_response` (publishedAt): no validation beyond length. -/
def isoDateSlice (raw : Json) : Except PyErr Json :=
  if pyTruthy raw then do
    let n ← pyLen raw
    if 10 ≤ n then pySlice10 raw else pure Json.null
  else pure Json.null

/-- The per-post body of the `parse_dailydev_response` loop: `none` models
`continue`. -/
noncomputable def ddCleanItem (i total : Nat) (post : Json) :
    Except PyErr (Option DDItem) :=
  match post with
  | .obj kvs => do
    let title ← pyStripJ (dictGet kvs "title" (.str ""))
    let url ← pyStripJ (dictGet kvs "url" (.str ""))
    if title.isEmpty || url.isEmpty then return none
    else do
      let date ← isoDateSlice (dictGet kvs "createdAt" (.str ""))
      let author := pyOr (dictGet kvs "author" (.obj [])) (.obj [])
      let author_name ← pyGetAttrGet author "name" (.str "")
      let author_username ← pyGetAttrGet author "username" (.str "")
      let source := pyOr (dictGet kvs "source" (.obj [])) (.obj [])
      let source_name ← pyGetAttrGet source "name" (.str "")
      let upvotes := dictGet kvs "upvotes" .null
      let comments := dictGet kvs "comments" .null
      -- `if upvotes is not None or comments is not None`
      let engagement : Option (Json × Json) :=
        match upvotes, comments with
        | Json.null, Json.null => none
        | _, _ => some (upvotes, comments)
      let tags := pyOr (dictGet kvs "tags" (.arr [])) (.arr [])
      let read_time := dictGet kvs "readTime" .null
      let relevance ← dd_compute_relevance i total kvs
      return some {
        id := "DD" ++ toString (i + 1)
        title := title
        url := url
        source_name := source_name
        author_name := author_name
        author_username := author_username
        date := date
        summary := dictGet kvs "summary" (.str "")
        tags := tags
        read_time := read_time
        engagement := engagement
        why_relevant := ""
        relevance := relevance }
  | _ => return none

/-- The enumeration loop of `parse_dailydev_response` over the raw posts. -/
noncomputable def ddCleanLoop (total : Nat) :
    Nat → List Json → Except PyErr (List DDItem) :=
  cleanLoop (fun i p => ddCleanItem i total p)

/-- `parse_dailydev_response(response)` of dailydev.py. -/
noncomputable def parse_dailydev_response (response : Dict) :
    Except PyErr (List DDItem) := do
  let posts := dictGet response "posts" (.arr [])
  if pyTruthy posts = false then return []
  else do
    let xs ← jsonElems posts
    ddCleanLoop xs.length 0 xs

/-! ### scripts/lib/tubelab_yt.py -/

/-- `DEPTH_CONFIG` of tubelab_yt.py: depth tier to result limit. -/
def YT_DEPTH_CONFIG : List (String × Nat) :=
  [("quick", 10), ("default", 20), ("deep", 50)]

/-- `DEPTH_CONFIG.get(depth, DEPTH_CONFIG["default"])` of
`search_youtube`: the result limit placed in the request URL. -/
def ytLimitGet (depth : String) : Nat :=
  match YT_DEPTH_CONFIG.lookup depth with
  | some l => l
  | none => 20

/-- Position score of tubelab's `_compute_relevance`: first result 1.0,
linear decay to a floor of 0.1. -/
noncomputable def ytPosScore (position total : Nat) : ℝ :=
  if total ≤ 1 then 1
  else max (1/10) (1 - ((position : ℝ) / ((total : ℝ) - 1)) * (9/10))

/-- `_compute_relevance(position, total, video)` of tubelab_yt.py: 40%
position, 60% views-dominant log-scaled engagement normalized by 14.
The `log1p` calls check `views`, `likes`, `comments` in that order. -/
noncomputable def yt_compute_relevance (position total : Nat)
    (video : Dict) : Except PyErr ℝ := do
  let pos_score := ytPosScore position total
  let lviews ← pyLog1pJ (pyOr (dictGet video "views" (.num 0)) (.num 0))
  let llikes ← pyLog1pJ (pyOr (dictGet video "likes" (.num 0)) (.num 0))
  let lcomments ← pyLog1pJ (pyOr (dictGet video "comments" (.num 0)) (.num 0))
  let eng_score : ℝ :=
    (50/100 : ℝ) * lviews + (30/100 : ℝ) * llikes + (20/100 : ℝ) * lcomments
  let eng_normalized : ℝ := min 1 (eng_score / 14)
  return (4/10 : ℝ) * pos_score + (6/10 : ℝ) * eng_normalized

/-- A cleaned item produced by `parse_youtube_response`. -/
structure YTItem where
  id : String
  title : String
  url : String
  channel_name : Json
  channel_id : Json
  date : Json
  duration : Json
  thumbnail : Json
  engagement : Option (Json × Json × Json)
  why_relevant : String
  relevance : ℝ

/-- The per-video body of the `parse_youtube_response` loop: `none` models
`continue`.  The playback URL is synthesized from the video id by an
f-string. -/
noncomputable def ytCleanItem (i total : Nat) (video : Json) :
    Except PyErr (Option YTItem) :=
  match video with
  | .obj kvs => do
    let video_id := dictGet kvs "id" (.str ("YT" ++ toString (i + 1)))
    let title ← pyStripJ (dictGet kvs "title" (.str ""))
    if title.isEmpty || pyTruthy video_id = false then return none
    else do
      let url := "https://www.youtube.com/watch?v=" ++ pyStr video_id
      let date ← isoDateSlice (dictGet kvs "publishedAt" (.str ""))
      let views := dictGet kvs "views" .null
      let likes := dictGet kvs "likes" .null
      let comments := dictGet kvs "comments" .null
      -- `if views is not None or likes is not None or comments is not None`
      let engagement : Option (Json × Json × Json) :=
        match views, likes, comments with
        | Json.null, Json.null, Json.null => none
        | _, _, _ => some (views, likes, comments)
      let relevance ← yt_compute_relevance i total kvs
      return some {
        id := "YT" ++ toString (i + 1)
        title := title
        url := url
        channel_name := dictGet kvs "channelName" (.str "")
        channel_id := dictGet kvs "channelId" (.str "")
        date := date
        duration := dictGet kvs "duration" .null
        thumbnail := dictGet kvs "thumbnail" (.str "")
        engagement := engagement
        why_relevant := ""
        relevance := relevance }
  | _ => return none

/-- The enumeration loop of `parse_youtube_response` over the raw
videos. -/
noncomputable def ytCleanLoop (total : Nat) :
    Nat → List Json → Except PyErr (List YTItem) :=
  cleanLoop (fun i v => ytCleanItem i total v)

/-- `parse_youtube_response(response)` of tubelab_yt.py. -/
noncomputable def parse_youtube_response (response : Dict) :
    Except PyErr (List YTItem) := do
  let videos := dictGet response "videos" (.arr [])
  if pyTruthy videos = false then return []
  else do
    let xs ← jsonElems videos
    ytCleanLoop xs.length 0 xs

/-! ### scripts/last30days.py — reddit recall-boost retry (lines 98–116)

The retry block of `_search_reddit` runs after the first parse.  The
"core subject" heuristic `openai_reddit._extract_core_subject` is called
by this block but is not part of the sources under verification; per the
spec it is an injectable text strategy, so it enters the model as the
value `core` it produced.  The retried `search_reddit` +
`parse_reddit_response` round trip is the oracle `retryResult`
(`.error` models any exception raised inside the `try`). -/

/-- One step of the retry merge: items of the retry pass whose URL is not
in the (fixed) set of first-pass URLs are appended, in order.  URLs of
items appended during the merge are not added to the set, exactly as in
the Python code, which builds `existing_urls` once. -/
def redditRetryMerge (firstItems retryItems : List RedditItem) :
    List RedditItem :=
  let existing_urls := firstItems.map (fun it => it.url)
  firstItems ++ retryItems.filter (fun it => !existing_urls.contains it.url)

/-- Python `s.lower()`: character-wise lowering (the embedded strings are
ASCII). -/
def pyLower (s : String) : String :=
  String.mk (s.toList.map Char.toLower)

/-- The retry block of `_search_reddit`: given the first-pass items, the
error state, the mock flag, the topic and the derived core subject, and
the oracle for the retried query, returns the final item list together
with the number of retry queries issued. -/
def searchRedditRetry (firstItems : List RedditItem)
    (firstError : Option String) (mock : Bool) (topic core : String)
    (retryResult : Except Unit (List RedditItem)) :
    List RedditItem × Nat :=
  if firstItems.length < 5 ∧ mock = false ∧ firstError = none then
    if pyLower core ≠ pyLower topic then
      match retryResult with
      | .error _ => (firstItems, 1)
      | .ok retryItems => (redditRetryMerge firstItems retryItems, 1)
    else (firstItems, 0)
  else (firstItems, 0)

/-! ### Python call compatibility (signatures)

`last30days.py` invokes each adapter's search function with the window
bounds and depth tier.  Whether such a call is accepted is a property of
the Python signature; the model below implements CPython's positional and
keyword argument binding for signatures without `*args`/`**kwargs`. -/

/-- A parameter of a Python function signature: its name and whether it
carries a default value. -/
structure PyParam where
  name : String
  dflt : Bool
deriving DecidableEq, Repr

/-- Whether a call with `npos` positional arguments and the distinct
keyword names `kwargs` binds successfully against the signature `params`
(CPython rules: positionals bind left to right and must not overflow;
keywords must name parameters not already bound positionally; every
parameter without a default must be bound). -/
def acceptsCall (params : List PyParam) (npos : Nat)
    (kwargs : List String) : Bool :=
  decide (npos ≤ params.length) &&
  kwargs.all (fun k => (params.drop npos).any (fun p => p.name = k)) &&
  (List.range params.length).all (fun i =>
    match params.get? i with
    | some p => p.dflt || decide (i < npos) || kwargs.contains p.name
    | none => true)

/-- Signature of `openai_reddit.search_reddit` (lines 37–42):
`(api_key, model, topic, mock_response=None)`. -/
def search_reddit_params : List PyParam :=
  [⟨"api_key", false⟩, ⟨"model", false⟩, ⟨"topic", false⟩,
    ⟨"mock_response", true⟩]

/-- Signature of `twitterapi_x.search_x`:
`(api_key, topic, from_date, to_date, depth="default",
mock_response=None)`. -/
def search_x_params : List PyParam :=
  [⟨"api_key", false⟩, ⟨"topic", false⟩, ⟨"from_date", false⟩,
    ⟨"to_date", false⟩, ⟨"depth", true⟩, ⟨"mock_response", true⟩]

/-- Signature of `dailydev.search_dailydev`:
`(api_key, topic, from_date, to_date, depth="default",
mock_response=None)`. -/
def search_dailydev_params : List PyParam :=
  [⟨"api_key", false⟩, ⟨"topic", false⟩, ⟨"from_date", false⟩,
    ⟨"to_date", false⟩, ⟨"depth", true⟩, ⟨"mock_response", true⟩]

/-- Signature of `tubelab_yt.search_youtube`:
`(api_key, topic, from_date, to_date, depth="default",
mock_response=None)`. -/
def search_youtube_params : List PyParam :=
  [⟨"api_key", false⟩, ⟨"topic", false⟩, ⟨"from_date", false⟩,
    ⟨"to_date", false⟩, ⟨"depth", true⟩, ⟨"mock_response", true⟩]

/-! ### General lemmas -/

/-- `Except` bind on a success. -/
theorem exceptBind_ok {ε α β : Type} (a : α) (f : α → Except ε β) :
    (Except.ok a >>= f) = f a := rfl

/-- `Except` bind on an error. -/
theorem exceptBind_err {ε α β : Type} (e : ε) (f : α → Except ε β) :
    (Except.error e >>= f : Except ε β) = .error e := rfl

/-- `pure` in the `Except` monad. -/
theorem exceptPure {ε α : Type} (a : α) :
    (pure a : Except ε α) = .ok a := rfl

/-- `Except.bind` applied to a success (projection-normalized form). -/
theorem exceptBindF_ok {ε α β : Type} (a : α) (f : α → Except ε β) :
    Except.bind (Except.ok a) f = f a := rfl

/-- `Except.bind` applied to an error (projection-normalized form). -/
theorem exceptBindF_err {ε α β : Type} (e : ε) (f : α → Except ε β) :
    Except.bind (Except.error e) f = .error e := rfl

/-- Every element of a successful `cleanLoop` run is produced by the body
`f` on some element of the input list. -/
theorem cleanLoop_mem {α : Type} (f : Nat → Json → Except PyErr (Option α)) :
    ∀ (l : List Json) (i : Nat) (out : List α), cleanLoop f i l = .ok out →
      ∀ it ∈ out, ∃ j x, x ∈ l ∧ f j x = .ok (some it) := by
  intro l
  induction l with
  | nil =>
    intro i out h it hit
    simp only [cleanLoop] at h
    cases h
    simp at hit
  | cons x rest ih =>
    intro i out h it hit
    cases hf : f i x with
    | error e => simp [cleanLoop, hf, exceptBind_err] at h
    | ok o =>
      cases o with
      | none =>
        simp only [cleanLoop, hf, exceptBind_ok] at h
        obtain ⟨j, y, hy, hfy⟩ := ih (i + 1) out h it hit
        exact ⟨j, y, List.mem_cons_of_mem x hy, hfy⟩
      | some it0 =>
        cases hrest : cleanLoop f (i + 1) rest with
        | error e => simp [cleanLoop, hf, hrest, exceptBind_ok, exceptBind_err] at h
        | ok l2 =>
          simp only [cleanLoop, hf, hrest, exceptBind_ok, exceptPure,
            Except.ok.injEq] at h
          subst h
          rcases List.mem_cons.mp hit with rfl | hmem
          · exact ⟨i, x, List.mem_cons_self x rest, hf⟩
          · obtain ⟨j, y, hy, hfy⟩ := ih (i + 1) l2 hrest it hmem
            exact ⟨j, y, List.mem_cons_of_mem x hy, hfy⟩

/-- Lookup in the three-entry depth tables misses for any other key. -/
theorem lookup3_none {β : Type} (k1 k2 k3 : String) (v1 v2 v3 : β)
    (d : String) (h1 : d ≠ k1) (h2 : d ≠ k2) (h3 : d ≠ k3) :
    ([(k1, v1), (k2, v2), (k3, v3)] : List (String × β)).lookup d = none := by
  have e1 : (d == k1) = false := beq_eq_false_iff_ne.mpr h1
  have e2 : (d == k2) = false := beq_eq_false_iff_ne.mpr h2
  have e3 : (d == k3) = false := beq_eq_false_iff_ne.mpr h3
  simp [List.lookup, e1, e2, e3]

/-! ### Claim theorems -/

/-- Claim C3: `build_query(topic, from_date, to_date, depth)` returns
exactly `"{topic} since:{from_date} until:{to_date} lang:en
-filter:retweets min_faves:{m}"` with `m` = 5 for quick, 3 for default,
2 for deep, and the concrete example for `"Claude Code"` over
`2026-01-01..2026-01-31` at default depth yields the exact documented
string. -/
theorem build_query_format :
    (∀ topic f t, build_query topic f t "quick" =
      topic ++ " since:" ++ f ++ " until:" ++ t ++
        " lang:en -filter:retweets min_faves:" ++ "5") ∧
    (∀ topic f t, build_query topic f t "default" =
      topic ++ " since:" ++ f ++ " until:" ++ t ++
        " lang:en -filter:retweets min_faves:" ++ "3") ∧
    (∀ topic f t, build_query topic f t "deep" =
      topic ++ " since:" ++ f ++ " until:" ++ t ++
        " lang:en -filter:retweets min_faves:" ++ "2") ∧
    build_query "Claude Code" "2026-01-01" "2026-01-31" "default" =
      "Claude Code since:2026-01-01 until:2026-01-31 lang:en -filter:retweets min_faves:3" := by
  refine ⟨fun topic f t => ?_, fun topic f t => ?_, fun topic f t => ?_, ?_⟩ <;> rfl

/-- Claim C5 (refuted): the discussion adapter's `search_reddit` does NOT
accept window bounds or a depth tier — its parameters are `api_key`,
`model`, `topic`, `mock_response` — so the orchestrator's live call
`search_reddit(key, model, topic, from_date, to_date, depth=depth)`
(five positionals plus a `depth` keyword) fails to bind, while the same
call shape is accepted by the social, article and video search
signatures. -/
theorem search_signature_mismatch :
    acceptsCall search_reddit_params 5 ["depth"] = false ∧
    (search_reddit_params.map PyParam.name).contains "from_date" = false ∧
    (search_reddit_params.map PyParam.name).contains "to_date" = false ∧
    (search_reddit_params.map PyParam.name).contains "depth" = false ∧
    acceptsCall search_x_params 4 ["depth"] = true ∧
    acceptsCall search_dailydev_params 4 ["depth"] = true ∧
    acceptsCall search_youtube_params 4 ["depth"] = true := by
  decide

/-- Claim C10: an unrecognized depth string behaves exactly like
`"default"` in every adapter: min_faves 3 with a 2-page cap for the
social query/search, and result limit 20 for the article and video
searches. -/
theorem unknown_depth_is_default (d : String) (hq : d ≠ "quick")
    (hd : d ≠ "default") (hp : d ≠ "deep") :
    xDepthGet d = (3, 2) ∧
    (∀ topic f t, build_query topic f t d = build_query topic f t "default") ∧
    ddLimitGet d = 20 ∧ ytLimitGet d = 20 ∧
    (∀ fetch topic f t,
      search_x fetch topic f t d = search_x fetch topic f t "default") := by
  have hx : xDepthGet d = (3, 2) := by
    unfold xDepthGet
    simp only [X_DEPTH_CONFIG]
    rw [lookup3_none _ _ _ _ _ _ d hq hd hp]
  have hbq : ∀ topic f t,
      build_query topic f t d = build_query topic f t "default" := by
    intro topic f t
    unfold build_query
    rw [hx]
    rfl
  refine ⟨hx, hbq, ?_, ?_, ?_⟩
  · unfold ddLimitGet
    simp only [DD_DEPTH_CONFIG]
    rw [lookup3_none _ _ _ _ _ _ d hq hd hp]
  · unfold ytLimitGet
    simp only [YT_DEPTH_CONFIG]
    rw [lookup3_none _ _ _ _ _ _ d hq hd hp]
  · intro fetch topic f t
    unfold search_x
    rw [hx, hbq topic f t]
    rfl

/-- The X depth table only ever yields one of its three configurations. -/
theorem xDepthGet_cases (d : String) :
    xDepthGet d = (5, 1) ∨ xDepthGet d = (3, 2) ∨ xDepthGet d = (2, 3) := by
  unfold xDepthGet X_DEPTH_CONFIG
  cases h1 : d == "quick" <;> cases h2 : d == "default" <;>
    cases h3 : d == "deep" <;> simp [List.lookup, h1, h2, h3]

/-- Every depth tier allows at least one page. -/
theorem xDepthGet_snd_pos (d : String) : 1 ≤ (xDepthGet d).2 := by
  rcases xDepthGet_cases d with h | h | h <;> rw [h] <;> norm_num

/-- Claim C4: in `search_x`, an HTTP transport error on the first page
propagates to the caller, while a transport error on any later page is
swallowed and the tweets accumulated from the earlier pages are
returned. -/
theorem x_transport_error_policy :
    (∀ fetch topic f t depth,
      fetch (build_query topic f t depth) 0 Json.null = .error () →
      search_x fetch topic f t depth = .error XErr.http) ∧
    (∀ fetch query rem page cursor acc, page ≠ 0 →
      fetch query page cursor = .error () →
      searchXLoop fetch query (rem + 1) page cursor acc = .ok acc) := by
  constructor
  · intro fetch topic f t depth h
    have hpos := xDepthGet_snd_pos depth
    obtain ⟨n, hn⟩ : ∃ n, (xDepthGet depth).2 = n + 1 :=
      ⟨(xDepthGet depth).2 - 1, by omega⟩
    unfold search_x
    rw [hn]
    rw [searchXLoop, h]
    rfl
  · intro fetch query rem page cursor acc hpage h
    rw [searchXLoop, h]
    simp [hpage]

/-- Witness for C4: a transport that always fails makes `search_x` raise
from page 0, and the same failing transport at page 1 returns the
accumulator unchanged. -/
theorem x_transport_error_policy_witness :
    search_x (fun _ _ _ => .error ()) "T" "A" "B" "default" =
      .error XErr.http ∧
    searchXLoop (fun _ _ _ => .error ()) "q" 1 1 Json.null [Json.num 7] =
      .ok [Json.num 7] := by
  constructor
  · exact x_transport_error_policy.1 (fun _ _ _ => .error ()) "T" "A" "B"
      "default" rfl
  · exact x_transport_error_policy.2 (fun _ _ _ => .error ()) "q" 0 1
      Json.null [Json.num 7] (by decide) rfl

/-- Claim C9: in the discussion search task, when the first pass yielded
fewer than 5 items with no prior error and not in mock mode, and the
derived core subject differs case-insensitively from the topic, exactly
one retry query is issued; of its items exactly those whose URL is not
among the first-pass URLs are appended (in order), and an exception
during the retry is swallowed, leaving the first-pass items intact. -/
theorem reddit_retry_policy (firstItems : List RedditItem)
    (firstError : Option String) (mock : Bool) (topic core : String)
    (retryResult : Except Unit (List RedditItem))
    (hlen : firstItems.length < 5) (hmock : mock = false)
    (herr : firstError = none) (hcore : pyLower core ≠ pyLower topic) :
    (searchRedditRetry firstItems firstError mock topic core retryResult).2
        = 1 ∧
    (∀ retryItems, retryResult = .ok retryItems →
      (searchRedditRetry firstItems firstError mock topic core
          retryResult).1 =
        firstItems ++ retryItems.filter
          (fun it => !(firstItems.map (fun x => x.url)).contains it.url)) ∧
    (∀ e : Unit, retryResult = .error e →
      (searchRedditRetry firstItems firstError mock topic core
          retryResult).1 = firstItems) := by
  unfold searchRedditRetry
  rw [if_pos ⟨hlen, hmock, herr⟩, if_pos hcore]
  refine ⟨?_, ?_, ?_⟩
  · cases retryResult <;> rfl
  · intro retryItems hr
    rw [hr]
    rfl
  · intro e hr
    rw [hr]

/-- First-pass item used by the C9 witness. -/
def rItemA : RedditItem :=
  ⟨"R1", "T", "https://reddit.com/r/a", "", Json.null, "", 1/2⟩

/-- Retry-pass item used by the C9 witness (fresh URL). -/
def rItemB : RedditItem :=
  ⟨"R2", "U", "https://reddit.com/r/b", "", Json.null, "", 1/2⟩

/-- Witness for C9: a concrete sparse first pass with a differing core
subject issues exactly one retry, merges only the fresh-URL item, and a
failing retry keeps the first pass. -/
theorem reddit_retry_policy_witness :
    (searchRedditRetry [rItemA] none false "Claude Code tips" "Claude Code"
      (.ok [rItemA, rItemB])).2 = 1 ∧
    (searchRedditRetry [rItemA] none false "Claude Code tips" "Claude Code"
      (.ok [rItemA, rItemB])).1 = [rItemA, rItemB] ∧
    (searchRedditRetry [rItemA] none false "Claude Code tips" "Claude Code"
      (.error ())).1 = [rItemA] := by
  obtain ⟨h1, h2, _⟩ := reddit_retry_policy [rItemA] none false
    "Claude Code tips" "Claude Code" (.ok [rItemA, rItemB])
    (by norm_num) rfl rfl (by decide)
  obtain ⟨_, _, h3⟩ := reddit_retry_policy [rItemA] none false
    "Claude Code tips" "Claude Code" (.error ())
    (by norm_num) rfl rfl (by decide)
  refine ⟨h1, (h2 [rItemA, rItemB] rfl).trans ?_, h3 () rfl⟩
  rfl

/-- Witness for C10 at the concrete unknown depth `"turbo"`. -/
theorem unknown_depth_is_default_witness :
    xDepthGet "turbo" = (3, 2) ∧
    build_query "T" "A" "B" "turbo" = build_query "T" "A" "B" "default" ∧
    ddLimitGet "turbo" = 20 ∧ ytLimitGet "turbo" = 20 ∧
    search_x (fun _ _ _ => .error ()) "T" "A" "B" "turbo" =
      search_x (fun _ _ _ => .error ()) "T" "A" "B" "default" := by
  obtain ⟨h1, h2, h3, h4, h5⟩ :=
    unknown_depth_is_default "turbo" (by decide) (by decide) (by decide)
  exact ⟨h1, h2 "T" "A" "B", h3, h4, h5 (fun _ _ _ => .error ()) "T" "A" "B"⟩

/-- Position monotonicity of the social relevance formula: with the tweet
(hence the engagement term) fixed, position 0 scores at least as high as
position `total - 1`. -/
theorem xRelPosAux (total : Nat) (tweet : Dict) (r0 rN : ℝ)
    (htot : 1 ≤ total)
    (h0 : x_compute_relevance 0 total tweet = .ok r0)
    (hN : x_compute_relevance (total - 1) total tweet = .ok rN) :
    rN ≤ r0 := by
  unfold x_compute_relevance at h0 hN
  cases hl : pyNum (pyOr (dictGet tweet "likeCount" (.num 0)) (.num 0)) with
  | error e => rw [hl] at h0; simp [exceptBind_err] at h0
  | ok lq =>
  cases hr : pyNum (pyOr (dictGet tweet "retweetCount" (.num 0)) (.num 0)) with
  | error e => rw [hl, hr] at h0; simp [exceptBind_ok, exceptBind_err] at h0
  | ok rq =>
  cases hp : pyNum (pyOr (dictGet tweet "replyCount" (.num 0)) (.num 0)) with
  | error e =>
    rw [hl, hr, hp] at h0; simp [exceptBind_ok, exceptBind_err] at h0
  | ok pq =>
  cases hq : pyNum (pyOr (dictGet tweet "quoteCount" (.num 0)) (.num 0)) with
  | error e =>
    rw [hl, hr, hp, hq] at h0; simp [exceptBind_ok, exceptBind_err] at h0
  | ok qq =>
  rw [hl, hr, hp, hq] at h0 hN
  simp only [exceptBind_ok, exceptPure, Except.ok.injEq] at h0 hN
  rcases le_or_lt total 1 with htle | htgt
  · have ht1 : total - 1 = 0 := by omega
    rw [ht1] at hN
    rw [← h0, ← hN]
  · have hcast : ((total - 1 : Nat) : ℝ) = (total : ℝ) - 1 := by
      push_cast [Nat.cast_sub (by omega : 1 ≤ total)]
      ring
    have hne : (total : ℝ) - 1 ≠ 0 := by
      have h2 : (2 : ℝ) ≤ (total : ℝ) := by exact_mod_cast htgt
      intro hc
      linarith
    rw [if_neg (by omega)] at h0 hN
    rw [hcast, div_self hne] at hN
    simp only [Nat.cast_zero, zero_div, mul_zero, sub_zero] at h0
    rw [← h0, ← hN]
    linarith

/-- The dailydev position score at the last index is at most the score at
index 0. -/
theorem ddPosScore_le (total : Nat) :
    ddPosScore (total - 1) total ≤ ddPosScore 0 total := by
  unfold ddPosScore
  rcases le_or_lt total 1 with h1 | h2
  · simp [if_pos h1]
  · have hcast : ((total - 1 : Nat) : ℝ) = (total : ℝ) - 1 := by
      push_cast [Nat.cast_sub (by omega : 1 ≤ total)]
      ring
    have hne : (total : ℝ) - 1 ≠ 0 := by
      have h3 : (2 : ℝ) ≤ (total : ℝ) := by exact_mod_cast h2
      intro hc
      linarith
    rw [if_neg (by omega), if_neg (by omega), hcast, div_self hne]
    simp only [Nat.cast_zero, zero_div, zero_mul, sub_zero, one_mul]
    norm_num

/-- The tubelab position score at the last index is at most the score at
index 0. -/
theorem ytPosScore_le (total : Nat) :
    ytPosScore (total - 1) total ≤ ytPosScore 0 total := by
  unfold ytPosScore
  rcases le_or_lt total 1 with h1 | h2
  · simp [if_pos h1]
  · have hcast : ((total - 1 : Nat) : ℝ) = (total : ℝ) - 1 := by
      push_cast [Nat.cast_sub (by omega : 1 ≤ total)]
      ring
    have hne : (total : ℝ) - 1 ≠ 0 := by
      have h3 : (2 : ℝ) ≤ (total : ℝ) := by exact_mod_cast h2
      intro hc
      linarith
    rw [if_neg (by omega), if_neg (by omega), hcast, div_self hne]
    simp only [Nat.cast_zero, zero_div, zero_mul, sub_zero, one_mul]
    norm_num

/-- Position monotonicity of the article relevance formula. -/
theorem ddRelPosAux (total : Nat) (post : Dict) (r0 rN : ℝ)
    (h0 : dd_compute_relevance 0 total post = .ok r0)
    (hN : dd_compute_relevance (total - 1) total post = .ok rN) :
    rN ≤ r0 := by
  unfold dd_compute_relevance at h0 hN
  cases hrt : pyNum (pyOr (dictGet post "readTime" (.num 0)) (.num 0)) with
  | error e => rw [hrt] at h0; simp [exceptBind_err] at h0
  | ok rtq =>
  cases hup : pyLog1pJ (pyOr (dictGet post "upvotes" (.num 0)) (.num 0)) with
  | error e => rw [hrt, hup] at h0; simp [exceptBind_ok, exceptBind_err] at h0
  | ok lup =>
  cases hco : pyLog1pJ (pyOr (dictGet post "comments" (.num 0)) (.num 0)) with
  | error e =>
    rw [hrt, hup, hco] at h0; simp [exceptBind_ok, exceptBind_err] at h0
  | ok lco =>
  rw [hrt, hup, hco] at h0 hN
  simp only [exceptBind_ok, exceptPure, Except.ok.injEq] at h0 hN
  have hpos := ddPosScore_le total
  rw [← h0, ← hN]
  linarith

/-- Position monotonicity of the video relevance formula. -/
theorem ytRelPosAux (total : Nat) (video : Dict) (r0 rN : ℝ)
    (h0 : yt_compute_relevance 0 total video = .ok r0)
    (hN : yt_compute_relevance (total - 1) total video = .ok rN) :
    rN ≤ r0 := by
  unfold yt_compute_relevance at h0 hN
  cases hv : pyLog1pJ (pyOr (dictGet video "views" (.num 0)) (.num 0)) with
  | error e => rw [hv] at h0; simp [exceptBind_err] at h0
  | ok lv =>
  cases hl : pyLog1pJ (pyOr (dictGet video "likes" (.num 0)) (.num 0)) with
  | error e => rw [hv, hl] at h0; simp [exceptBind_ok, exceptBind_err] at h0
  | ok ll =>
  cases hc : pyLog1pJ (pyOr (dictGet video "comments" (.num 0)) (.num 0)) with
  | error e =>
    rw [hv, hl, hc] at h0; simp [exceptBind_ok, exceptBind_err] at h0
  | ok lc =>
  rw [hv, hl, hc] at h0 hN
  simp only [exceptBind_ok, exceptPure, Except.ok.injEq] at h0 hN
  have hpos := ytPosScore_le total
  rw [← h0, ← hN]
  linarith

/-- Claim C7: for each source's relevance formula, holding the item's
engagement fields fixed, the relevance computed at position 0 is at least
the relevance computed at position `total - 1`, for any `total ≥ 1`. -/
theorem relevance_position_mono :
    (∀ (total : Nat) (tweet : Dict) (r0 rN : ℝ), 1 ≤ total →
      x_compute_relevance 0 total tweet = .ok r0 →
      x_compute_relevance (total - 1) total tweet = .ok rN → rN ≤ r0) ∧
    (∀ (total : Nat) (post : Dict) (r0 rN : ℝ), 1 ≤ total →
      dd_compute_relevance 0 total post = .ok r0 →
      dd_compute_relevance (total - 1) total post = .ok rN → rN ≤ r0) ∧
    (∀ (total : Nat) (video : Dict) (r0 rN : ℝ), 1 ≤ total →
      yt_compute_relevance 0 total video = .ok r0 →
      yt_compute_relevance (total - 1) total video = .ok rN → rN ≤ r0) :=
  ⟨fun total tweet r0 rN htot h0 hN => xRelPosAux total tweet r0 rN htot h0 hN,
   fun total post r0 rN _ h0 hN => ddRelPosAux total post r0 rN h0 hN,
   fun total video r0 rN _ h0 hN => ytRelPosAux total video r0 rN h0 hN⟩

/-- Witness for C7: evaluation of all three formulas on an empty
engagement profile with two results, first versus last position. -/
theorem relevance_position_mono_witness :
    x_compute_relevance 0 2 [] = .ok (3/5 : ℝ) ∧
    x_compute_relevance 1 2 [] = .ok (3/10 : ℝ) ∧ (3/10 : ℝ) ≤ 3/5 ∧
    dd_compute_relevance 0 2 [] = .ok (1/2 : ℝ) ∧
    dd_compute_relevance 1 2 [] = .ok (1/20 : ℝ) ∧ (1/20 : ℝ) ≤ 1/2 ∧
    yt_compute_relevance 0 2 [] = .ok (2/5 : ℝ) ∧
    yt_compute_relevance 1 2 [] = .ok (1/25 : ℝ) ∧ (1/25 : ℝ) ≤ 2/5 := by
  have hx0 : x_compute_relevance 0 2 [] = .ok (3/5 : ℝ) := by
    unfold x_compute_relevance
    norm_num [dictGet, List.lookup, pyOr, pyTruthy, pyNum, X_WEIGHTS,
      exceptBind_ok, exceptPure, Real.log_one, min_def]
  have hxN : x_compute_relevance 1 2 [] = .ok (3/10 : ℝ) := by
    unfold x_compute_relevance
    norm_num [dictGet, List.lookup, pyOr, pyTruthy, pyNum, X_WEIGHTS,
      exceptBind_ok, exceptPure, Real.log_one, min_def]
  have hd0 : dd_compute_relevance 0 2 [] = .ok (1/2 : ℝ) := by
    unfold dd_compute_relevance ddPosScore
    norm_num [dictGet, List.lookup, pyOr, pyTruthy, pyNum, pyLog1pJ, pyLog1p,
      exceptBind_ok, exceptPure, Real.log_one, min_def, max_def]
  have hdN : dd_compute_relevance 1 2 [] = .ok (1/20 : ℝ) := by
    unfold dd_compute_relevance ddPosScore
    norm_num [dictGet, List.lookup, pyOr, pyTruthy, pyNum, pyLog1pJ, pyLog1p,
      exceptBind_ok, exceptPure, Real.log_one, min_def, max_def]
  have hy0 : yt_compute_relevance 0 2 [] = .ok (2/5 : ℝ) := by
    unfold yt_compute_relevance ytPosScore
    norm_num [dictGet, List.lookup, pyOr, pyTruthy, pyNum, pyLog1pJ, pyLog1p,
      exceptBind_ok, exceptPure, Real.log_one, min_def, max_def]
  have hyN : yt_compute_relevance 1 2 [] = .ok (1/25 : ℝ) := by
    unfold yt_compute_relevance ytPosScore
    norm_num [dictGet, List.lookup, pyOr, pyTruthy, pyNum, pyLog1pJ, pyLog1p,
      exceptBind_ok, exceptPure, Real.log_one, min_def, max_def]
  refine ⟨hx0, hxN, relevance_position_mono.1 2 [] _ _ (by norm_num) hx0 hxN,
    hd0, hdN, relevance_position_mono.2.1 2 [] _ _ (by norm_num) hd0 hdN,
    hy0, hyN, relevance_position_mono.2.2 2 [] _ _ (by norm_num) hy0 hyN⟩

/-- Every item kept by the reddit validate-and-clean body has a non-empty
URL containing the substring "reddit.com". -/
theorem redditCleanItem_url (j : Nat) (x : Json) (it : RedditItem)
    (h : redditCleanItem j x = .ok (some it)) :
    it.url ≠ "" ∧ strContains it.url "reddit.com" = true := by
  cases x with
  | obj kvs =>
    simp only [redditCleanItem] at h
    split at h
    · simp at h
    · next hcond =>
      split at h
      · next u heq =>
        split at h
        · simp at h
        · next hcont =>
          cases hrel : pyFloat (dictGet kvs "relevance" (.num (1/2))) with
          | error e => rw [hrel] at h; simp [exceptBind_err] at h
          | ok rel =>
            rw [hrel] at h
            simp only [exceptBind_ok, exceptPure, Except.ok.injEq,
              Option.some.injEq] at h
            subst h
            refine ⟨?_, by simpa using hcont⟩
            rw [heq] at hcond
            simp only [pyTruthy, Bool.not_eq_false] at hcond
            show u ≠ ""
            intro hempty
            rw [hempty] at hcond
            exact absurd hcond (by decide)
      · next hnotstr => simp at h
  | null => simp [redditCleanItem] at h
  | bool b => simp [redditCleanItem] at h
  | num q => simp [redditCleanItem] at h
  | str s => simp [redditCleanItem] at h
  | arr xs => simp [redditCleanItem] at h

/-- Item A of the C2 end-to-end example: reddit.com URL, title "X". -/
def c2ItemA : Json :=
  .obj [("title", .str "X"), ("url", .str "https://reddit.com/r/test/abc")]

/-- Item B of the C2 end-to-end example: URL without "reddit.com". -/
def c2ItemB : Json :=
  .obj [("title", .str "Y"), ("url", .str "https://example.com/b")]

/-- Claim C2: `parse_reddit_response` drops every entry whose URL is empty
or lacks the substring "reddit.com"; on the two-item payload where item A
(first) is a reddit.com URL and item B is not, the result is exactly the
cleaned item A with id "R1". -/
theorem reddit_parse_url_filter :
    (∀ (extract : Dict → List Json) (response : Dict)
        (out : List RedditItem),
      parse_reddit_response extract response = .ok out →
      ∀ it ∈ out, it.url ≠ "" ∧ strContains it.url "reddit.com" = true) ∧
    parse_reddit_response (fun _ => [c2ItemA, c2ItemB]) [] =
      .ok [⟨"R1", "X", "https://reddit.com/r/test/abc", "", Json.null, "",
        1/2⟩] := by
  constructor
  · intro extract response out h it hit
    obtain ⟨j, x, _, hx⟩ := cleanLoop_mem redditCleanItem
      (extract response) 0 out h it hit
    exact redditCleanItem_url j x it hx
  · have eA0 : redditCleanItem 0 c2ItemA = .ok (some ⟨"R1", "X",
        "https://reddit.com/r/test/abc", "", Json.null, "",
        min 1 (max 0 (1/2))⟩) := rfl
    have eArel : (min 1 (max 0 (1/2 : ℚ))) = 1/2 := by norm_num
    have eA : redditCleanItem 0 c2ItemA = .ok (some ⟨"R1", "X",
        "https://reddit.com/r/test/abc", "", Json.null, "", 1/2⟩) := by
      rw [eA0, eArel]
    have eB : redditCleanItem 1 c2ItemB = .ok none := rfl
    show redditCleanLoop 0 [c2ItemA, c2ItemB] = _
    simp only [redditCleanLoop, cleanLoop, eA, eB, exceptBind_ok, exceptPure]

/-- Witness for C2: the kept item of the concrete payload indeed has a
non-empty reddit.com URL. -/
theorem reddit_parse_url_filter_witness :
    ("https://reddit.com/r/test/abc" : String) ≠ "" ∧
    strContains "https://reddit.com/r/test/abc" "reddit.com" = true := by
  have h := reddit_parse_url_filter.1 (fun _ => [c2ItemA, c2ItemB]) []
    [⟨"R1", "X", "https://reddit.com/r/test/abc", "", Json.null, "", 1/2⟩]
    reddit_parse_url_filter.2
    ⟨"R1", "X", "https://reddit.com/r/test/abc", "", Json.null, "", 1/2⟩
    (List.mem_singleton.mpr rfl)
  exact h

/-- The claim's notion of a "well-formed YYYY-MM-DD date string", stated
from the specification's words (shape plus a calendar-plausible month
1–12 and day 1–31); used only to exhibit the counterexample, which any
stricter calendar notion also rejects. -/
def specWellFormedDate (s : String) : Bool :=
  match s.toList with
  | [y1, y2, y3, y4, '-', m1, m2, '-', d1, d2] =>
    if [y1, y2, y3, y4, m1, m2, d1, d2].all Char.isDigit then
      let m := (m1.toNat - 48) * 10 + (m2.toNat - 48)
      let d := (d1.toNat - 48) * 10 + (d2.toNat - 48)
      decide (1 ≤ m ∧ m ≤ 12 ∧ 1 ≤ d ∧ d ≤ 31)
    else false
  | _ => false

/-- Input item of the C6 counterexample: its date `"2026-13-99"` (month 13,
day 99) is digit-shaped but not a well-formed date. -/
def c6Item : Json :=
  .obj [("title", .str "T"), ("url", .str "https://reddit.com/r/x"),
    ("date", .str "2026-13-99")]

/-- Counterexample to claim C6: `parse_reddit_response` keeps the
calendar-invalid date `"2026-13-99"` verbatim instead of nulling it —
its validation is shape-only. -/
theorem malformed_date_kept_cex :
    specWellFormedDate "2026-13-99" = false ∧
    parse_reddit_response (fun _ => [c6Item]) [] =
      .ok [⟨"R1", "T", "https://reddit.com/r/x", "",
        Json.str "2026-13-99", "", 1/2⟩] := by
  constructor
  · decide
  · have e0 : redditCleanItem 0 c6Item = .ok (some ⟨"R1", "T",
        "https://reddit.com/r/x", "", Json.str "2026-13-99", "",
        min 1 (max 0 (1/2))⟩) := rfl
    have erel : (min 1 (max 0 (1/2 : ℚ))) = 1/2 := by norm_num
    have e1 : redditCleanItem 0 c6Item = .ok (some ⟨"R1", "T",
        "https://reddit.com/r/x", "", Json.str "2026-13-99", "", 1/2⟩) := by
      rw [e0, erel]
    show redditCleanLoop 0 [c6Item] = _
    simp only [redditCleanLoop, cleanLoop, e1, exceptBind_ok, exceptPure]

/-- `digitChar` always renders a decimal digit. -/
theorem digitChar_isDigit (n : Nat) : (digitChar n).isDigit = true := by
  unfold digitChar
  have h : n % 10 = 0 ∨ n % 10 = 1 ∨ n % 10 = 2 ∨ n % 10 = 3 ∨ n % 10 = 4 ∨
      n % 10 = 5 ∨ n % 10 = 6 ∨ n % 10 = 7 ∨ n % 10 = 8 ∨ n % 10 = 9 := by
    omega
  rcases h with h | h | h | h | h | h | h | h | h | h <;> rw [h] <;> decide

/-- `fmtYMD` always produces a ten-character digit-shaped date. -/
theorem fmtYMD_shape (y m d : Nat) : matchYMDall (fmtYMD y m d) = true := by
  show matchYMDall (String.mk [digitChar (y / 1000), digitChar (y / 100),
    digitChar (y / 10), digitChar y, '-', digitChar (m / 10), digitChar m,
    '-', digitChar (d / 10), digitChar d]) = true
  simp only [matchYMDall, String.toList]
  simp [digitChar_isDigit]

/-- The ISO-prefix regex of `_parse_created_at` returns a digit-shaped
date. -/
theorem matchYMDpre_shape (t : String) (d : String)
    (h : matchYMDpre t = some d) : matchYMDall d = true := by
  unfold matchYMDpre at h
  split at h
  · next a b c e f g i j rest =>
    split at h
    · next hdig =>
      simp only [Option.some.injEq] at h
      subst h
      simp only [matchYMDall, String.toList]
      simpa using hdig
    · simp at h
  · simp at h

/-- Amended claim C6, part for `_parse_created_at`: a successfully parsed
X date is always digit-shaped. -/
theorem x_parse_created_at_shape
    (twFmt : String → Option (Fin 10000 × Fin 13 × Fin 32)) (j : Json)
    (s : String) (h : x_parse_created_at twFmt j = some s) :
    matchYMDall s = true := by
  cases j with
  | str t =>
    simp only [x_parse_created_at] at h
    split at h
    · simp at h
    · split at h
      · next d hpre =>
        simp only [Option.some.injEq] at h
        subst h
        exact matchYMDpre_shape (pyStrip t) _ hpre
      · cases htw : twFmt (pyStrip t) with
        | none => rw [htw] at h; simp at h
        | some ymd =>
          rw [htw] at h
          simp only [Option.map_some, Option.some.injEq] at h
          subst h
          exact fmtYMD_shape _ _ _
  | null => simp [x_parse_created_at] at h
  | bool b => simp [x_parse_created_at] at h
  | num q => simp [x_parse_created_at] at h
  | arr xs => simp [x_parse_created_at] at h
  | obj kvs => simp [x_parse_created_at] at h

/-- A successful `isoDateSlice` yields null or the ten-element slice of
the raw value. -/
theorem isoDateSlice_ok (raw : Json) (v : Json)
    (h : isoDateSlice raw = .ok v) :
    v = Json.null ∨ pySlice10 raw = .ok v := by
  unfold isoDateSlice at h
  split at h
  · cases hn : pyLen raw with
    | error e => rw [hn] at h; simp [exceptBind_err] at h
    | ok n =>
      rw [hn] at h
      simp only [exceptBind_ok] at h
      split at h
      · right; exact h
      · left
        simp only [exceptPure, Except.ok.injEq] at h
        exact h.symm
  · left
    simp only [exceptPure, Except.ok.injEq] at h
    exact h.symm

/-- A truthy output of the reddit date validation is digit-shaped. -/
theorem redditDateClean_shape (d0 : Json)
    (htr : pyTruthy (redditDateClean d0) = true) :
    matchYMDall (pyStr (redditDateClean d0)) = true := by
  unfold redditDateClean at htr ⊢
  cases hM : matchYMDall (pyStr d0) with
  | true => simp [hM]
  | false =>
    cases hT : pyTruthy d0 with
    | false => simp [hT] at htr
    | true =>
      simp only [hT, hM] at htr
      simp [pyTruthy] at htr

/-- Inversion of the reddit per-item body: the kept item's date is either
falsy-as-given or digit-shaped, and its relevance is the clamp of the
parsed float. -/
theorem redditCleanItem_props (j : Nat) (x : Json) (it : RedditItem)
    (h : redditCleanItem j x = .ok (some it)) :
    (pyTruthy it.date = true → matchYMDall (pyStr it.date) = true) ∧
    ∃ rel : ℚ, it.relevance = min 1 (max 0 rel) := by
  cases x with
  | obj kvs =>
    simp only [redditCleanItem] at h
    split at h
    · simp at h
    · split at h
      · next u heq =>
        split at h
        · simp at h
        · cases hrel : pyFloat (dictGet kvs "relevance" (.num (1/2))) with
          | error e => rw [hrel] at h; simp [exceptBind_err] at h
          | ok rel =>
            rw [hrel] at h
            simp only [exceptBind_ok, exceptPure, Except.ok.injEq,
              Option.some.injEq] at h
            subst h
            refine ⟨?_, rel, rfl⟩
            intro htr
            exact redditDateClean_shape _ htr
      · simp at h
  | null => simp [redditCleanItem] at h
  | bool b => simp [redditCleanItem] at h
  | num q => simp [redditCleanItem] at h
  | str s => simp [redditCleanItem] at h
  | arr xs => simp [redditCleanItem] at h

/-- Inversion of the dailydev per-item body: the kept item's relevance is
exactly `_compute_relevance` of the post, its date is null or the raw
ten-character slice, and its engagement is absent or the raw
upvotes/comments pair. -/
theorem ddCleanItem_props (i total : Nat) (x : Json) (it : DDItem)
    (h : ddCleanItem i total x = .ok (some it)) :
    ∃ kvs, x = Json.obj kvs ∧
      (∃ rel : ℝ, dd_compute_relevance i total kvs = .ok rel ∧
        it.relevance = rel) ∧
      (it.date = Json.null ∨
        pySlice10 (dictGet kvs "createdAt" (.str "")) = .ok it.date) ∧
      (it.engagement = none ∨
        it.engagement = some (dictGet kvs "upvotes" Json.null,
          dictGet kvs "comments" Json.null)) := by
  cases x with
  | obj kvs =>
    refine ⟨kvs, rfl, ?_⟩
    simp only [ddCleanItem] at h
    cases ht : pyStripJ (dictGet kvs "title" (.str "")) with
    | error e => rw [ht] at h; simp [exceptBind_err] at h
    | ok title =>
    cases hu : pyStripJ (dictGet kvs "url" (.str "")) with
    | error e => rw [ht, hu] at h; simp [exceptBind_ok, exceptBind_err] at h
    | ok url =>
    rw [ht, hu] at h
    simp only [exceptBind_ok] at h
    split at h
    · simp [exceptPure] at h
    · cases hd : isoDateSlice (dictGet kvs "createdAt" (.str "")) with
      | error e => rw [hd] at h; simp [exceptBind_err] at h
      | ok date =>
      cases han : pyGetAttrGet (pyOr (dictGet kvs "author" (.obj []))
          (.obj [])) "name" (.str "") with
      | error e => rw [hd, han] at h; simp [exceptBind_ok, exceptBind_err] at h
      | ok aname =>
      cases hau : pyGetAttrGet (pyOr (dictGet kvs "author" (.obj []))
          (.obj [])) "username" (.str "") with
      | error e =>
        rw [hd, han, hau] at h; simp [exceptBind_ok, exceptBind_err] at h
      | ok auser =>
      cases hsn : pyGetAttrGet (pyOr (dictGet kvs "source" (.obj []))
          (.obj [])) "name" (.str "") with
      | error e =>
        rw [hd, han, hau, hsn] at h; simp [exceptBind_ok, exceptBind_err] at h
      | ok sname =>
      cases hr : dd_compute_relevance i total kvs with
      | error e =>
        rw [hd, han, hau, hsn, hr] at h
        simp [exceptBind_ok, exceptBind_err] at h
      | ok rel =>
      rw [hd, han, hau, hsn, hr] at h
      simp only [exceptBind_ok, exceptPure, Except.ok.injEq,
        Option.some.injEq] at h
      subst h
      refine ⟨⟨rel, rfl, rfl⟩, ?_, ?_⟩
      · rcases isoDateSlice_ok _ _ hd with hnull | hslice
        · left; exact hnull
        · right; exact hslice
      · cases dictGet kvs "upvotes" Json.null <;>
          cases dictGet kvs "comments" Json.null <;> simp
  | null => simp [ddCleanItem, exceptPure] at h
  | bool b => simp [ddCleanItem, exceptPure] at h
  | num q => simp [ddCleanItem, exceptPure] at h
  | str s => simp [ddCleanItem, exceptPure] at h
  | arr xs => simp [ddCleanItem, exceptPure] at h

/-- Inversion of the tubelab per-item body. -/
theorem ytCleanItem_props (i total : Nat) (x : Json) (it : YTItem)
    (h : ytCleanItem i total x = .ok (some it)) :
    ∃ kvs, x = Json.obj kvs ∧
      (∃ rel : ℝ, yt_compute_relevance i total kvs = .ok rel ∧
        it.relevance = rel) ∧
      (it.date = Json.null ∨
        pySlice10 (dictGet kvs "publishedAt" (.str "")) = .ok it.date) ∧
      (it.engagement = none ∨
        it.engagement = some (dictGet kvs "views" Json.null,
          dictGet kvs "likes" Json.null, dictGet kvs "comments" Json.null))
    := by
  cases x with
  | obj kvs =>
    refine ⟨kvs, rfl, ?_⟩
    simp only [ytCleanItem] at h
    cases ht : pyStripJ (dictGet kvs "title" (.str "")) with
    | error e => rw [ht] at h; simp [exceptBind_err] at h
    | ok title =>
      rw [ht] at h
      simp only [exceptBind_ok] at h
      split at h
      · simp [exceptPure] at h
      · cases hd : isoDateSlice (dictGet kvs "publishedAt" (.str "")) with
        | error e => rw [hd] at h; simp [exceptBind_err] at h
        | ok date =>
        cases hr : yt_compute_relevance i total kvs with
        | error e => rw [hd, hr] at h; simp [exceptBind_ok, exceptBind_err] at h
        | ok rel =>
        rw [hd, hr] at h
        simp only [exceptBind_ok, exceptPure, Except.ok.injEq,
          Option.some.injEq] at h
        subst h
        refine ⟨⟨rel, rfl, rfl⟩, ?_, ?_⟩
        · rcases isoDateSlice_ok _ _ hd with hnull | hslice
          · left; exact hnull
          · right; exact hslice
        · cases dictGet kvs "views" Json.null <;>
            cases dictGet kvs "likes" Json.null <;>
            cases dictGet kvs "comments" Json.null <;> simp
  | null => simp [ytCleanItem, exceptPure] at h
  | bool b => simp [ytCleanItem, exceptPure] at h
  | num q => simp [ytCleanItem, exceptPure] at h
  | str s => simp [ytCleanItem, exceptPure] at h
  | arr xs => simp [ytCleanItem, exceptPure] at h

/-- Inversion of the X per-item body: the kept item's relevance is the
clamp of `_compute_relevance`, and its engagement is the `int(x or 0)`
coercion of the four raw counters. -/
theorem xCleanItem_props
    (twFmt : String → Option (Fin 10000 × Fin 13 × Fin 32))
    (i total : Nat) (x : Json) (it : XItem)
    (h : xCleanItem twFmt i total x = .ok (some it)) :
    ∃ kvs, x = Json.obj kvs ∧
      (∃ r : ℝ, it.relevance = min 1 (max 0 r)) ∧
      (∃ l r p q : Int,
        pyInt (pyOr (dictGet kvs "likeCount" (.num 0)) (.num 0)) = .ok l ∧
        pyInt (pyOr (dictGet kvs "retweetCount" (.num 0)) (.num 0)) = .ok r ∧
        pyInt (pyOr (dictGet kvs "replyCount" (.num 0)) (.num 0)) = .ok p ∧
        pyInt (pyOr (dictGet kvs "quoteCount" (.num 0)) (.num 0)) = .ok q ∧
        it.engagement = ⟨l, r, p, q⟩) := by
  cases x with
  | obj kvs =>
    refine ⟨kvs, rfl, ?_⟩
    simp only [xCleanItem] at h
    split at h
    · simp [exceptPure] at h
    · cases hl : pyInt (pyOr (dictGet kvs "likeCount" (.num 0)) (.num 0)) with
      | error e => rw [hl] at h; simp [exceptBind_err] at h
      | ok lv =>
      cases hr2 : pyInt (pyOr (dictGet kvs "retweetCount" (.num 0))
          (.num 0)) with
      | error e => rw [hl, hr2] at h; simp [exceptBind_ok, exceptBind_err] at h
      | ok rv =>
      cases hp2 : pyInt (pyOr (dictGet kvs "replyCount" (.num 0))
          (.num 0)) with
      | error e =>
        rw [hl, hr2, hp2] at h; simp [exceptBind_ok, exceptBind_err] at h
      | ok pv =>
      cases hq2 : pyInt (pyOr (dictGet kvs "quoteCount" (.num 0))
          (.num 0)) with
      | error e =>
        rw [hl, hr2, hp2, hq2] at h
        simp [exceptBind_ok, exceptBind_err] at h
      | ok qv =>
      cases hrel : x_compute_relevance i total kvs with
      | error e =>
        rw [hl, hr2, hp2, hq2, hrel] at h
        simp [exceptBind_ok, exceptBind_err] at h
      | ok rel =>
      rw [hl, hr2, hp2, hq2, hrel] at h
      simp only [exceptBind_ok, exceptPure, Except.ok.injEq,
        Option.some.injEq] at h
      subst h
      exact ⟨⟨rel, rfl⟩, lv, rv, pv, qv, rfl, rfl, rfl, rfl, rfl⟩
  | null => simp [xCleanItem, exceptPure] at h
  | bool b => simp [xCleanItem, exceptPure] at h
  | num q => simp [xCleanItem, exceptPure] at h
  | str s => simp [xCleanItem, exceptPure] at h
  | arr xs => simp [xCleanItem, exceptPure] at h

/-- The decoded posts list a dailydev response is parsed over (empty when
iteration would fail). -/
def ddPostsOf (response : Dict) : List Json :=
  match jsonElems (dictGet response "posts" (.arr [])) with
  | .ok l => l
  | .error _ => []

/-- The decoded videos list a tubelab response is parsed over. -/
def ytVideosOf (response : Dict) : List Json :=
  match jsonElems (dictGet response "videos" (.arr [])) with
  | .ok l => l
  | .error _ => []

/-- The decoded tweets list an X response is parsed over. -/
def xTweetsOf (response : Dict) : List Json :=
  match jsonElems (dictGet response "tweets" (.arr [])) with
  | .ok l => l
  | .error _ => []

/-- Every parsed dailydev item is produced by the per-post body on some
post of the response. -/
theorem parse_dd_mem (response : Dict) (out : List DDItem)
    (h : parse_dailydev_response response = .ok out) :
    ∀ it ∈ out, ∃ j x, x ∈ ddPostsOf response ∧
      ddCleanItem j (ddPostsOf response).length x = .ok (some it) := by
  intro it hit
  unfold parse_dailydev_response at h
  replace h :
      (if pyTruthy (dictGet response "posts" (Json.arr [])) = false then
        (pure [] : Except PyErr (List DDItem))
      else do
        let xs ← jsonElems (dictGet response "posts" (Json.arr []))
        ddCleanLoop xs.length 0 xs) = .ok out := h
  split at h
  · simp only [exceptPure, Except.ok.injEq] at h
    subst h
    simp at hit
  · cases hj : jsonElems (dictGet response "posts" (.arr [])) with
    | error e => rw [hj] at h; simp [exceptBind_err] at h
    | ok xs =>
      rw [hj] at h
      simp only [exceptBind_ok] at h
      have hpo : ddPostsOf response = xs := by unfold ddPostsOf; rw [hj]
      obtain ⟨j, x, hx, hfx⟩ :=
        cleanLoop_mem (fun i p => ddCleanItem i xs.length p) xs 0 out h it hit
      rw [hpo]
      exact ⟨j, x, hx, hfx⟩

/-- Every parsed tubelab item is produced by the per-video body on some
video of the response. -/
theorem parse_yt_mem (response : Dict) (out : List YTItem)
    (h : parse_youtube_response response = .ok out) :
    ∀ it ∈ out, ∃ j x, x ∈ ytVideosOf response ∧
      ytCleanItem j (ytVideosOf response).length x = .ok (some it) := by
  intro it hit
  unfold parse_youtube_response at h
  replace h :
      (if pyTruthy (dictGet response "videos" (Json.arr [])) = false then
        (pure [] : Except PyErr (List YTItem))
      else do
        let xs ← jsonElems (dictGet response "videos" (Json.arr []))
        ytCleanLoop xs.length 0 xs) = .ok out := h
  split at h
  · simp only [exceptPure, Except.ok.injEq] at h
    subst h
    simp at hit
  · cases hj : jsonElems (dictGet response "videos" (.arr [])) with
    | error e => rw [hj] at h; simp [exceptBind_err] at h
    | ok xs =>
      rw [hj] at h
      simp only [exceptBind_ok] at h
      have hpo : ytVideosOf response = xs := by unfold ytVideosOf; rw [hj]
      obtain ⟨j, x, hx, hfx⟩ :=
        cleanLoop_mem (fun i v => ytCleanItem i xs.length v) xs 0 out h it hit
      rw [hpo]
      exact ⟨j, x, hx, hfx⟩

/-- Every parsed X item is produced by the per-tweet body on some tweet of
the response. -/
theorem parse_x_mem (twFmt : String → Option (Fin 10000 × Fin 13 × Fin 32))
    (response : Dict) (out : List XItem)
    (h : parse_x_response twFmt response = .ok out) :
    ∀ it ∈ out, ∃ j x, x ∈ xTweetsOf response ∧
      xCleanItem twFmt j (xTweetsOf response).length x = .ok (some it) := by
  intro it hit
  unfold parse_x_response at h
  replace h :
      (if pyTruthy (dictGet response "tweets" (Json.arr [])) = false then
        (pure [] : Except PyErr (List XItem))
      else do
        let xs ← jsonElems (dictGet response "tweets" (Json.arr []))
        xCleanLoop twFmt xs.length 0 xs) = .ok out := h
  split at h
  · simp only [exceptPure, Except.ok.injEq] at h
    subst h
    simp at hit
  · cases hj : jsonElems (dictGet response "tweets" (.arr [])) with
    | error e => rw [hj] at h; simp [exceptBind_err] at h
    | ok xs =>
      rw [hj] at h
      simp only [exceptBind_ok] at h
      have hpo : xTweetsOf response = xs := by unfold xTweetsOf; rw [hj]
      obtain ⟨j, x, hx, hfx⟩ :=
        cleanLoop_mem (fun i t => xCleanItem twFmt i xs.length t) xs 0 out h
          it hit
      rw [hpo]
      exact ⟨j, x, hx, hfx⟩

/-- Non-negativity of the three numeric inputs of dailydev's
`_compute_relevance`, as obtained by its own coercions. -/
def ddEngOk (kvs : Dict) : Prop :=
  (∀ q : ℚ, pyNum (pyOr (dictGet kvs "readTime" (.num 0)) (.num 0)) = .ok q →
    0 ≤ q) ∧
  (∀ q : ℚ, pyNum (pyOr (dictGet kvs "upvotes" (.num 0)) (.num 0)) = .ok q →
    0 ≤ q) ∧
  (∀ q : ℚ, pyNum (pyOr (dictGet kvs "comments" (.num 0)) (.num 0)) = .ok q →
    0 ≤ q)

/-- Non-negativity of the three numeric inputs of tubelab's
`_compute_relevance`. -/
def ytEngOk (kvs : Dict) : Prop :=
  (∀ q : ℚ, pyNum (pyOr (dictGet kvs "views" (.num 0)) (.num 0)) = .ok q →
    0 ≤ q) ∧
  (∀ q : ℚ, pyNum (pyOr (dictGet kvs "likes" (.num 0)) (.num 0)) = .ok q →
    0 ≤ q) ∧
  (∀ q : ℚ, pyNum (pyOr (dictGet kvs "comments" (.num 0)) (.num 0)) = .ok q →
    0 ≤ q)

/-- Inversion of a successful `log1p` application. -/
theorem pyLog1pJ_ok (j : Json) (v : ℝ) (h : pyLog1pJ j = .ok v) :
    ∃ q : ℚ, pyNum j = .ok q ∧ ¬(q ≤ -1) ∧ v = Real.log (1 + (q : ℝ)) := by
  unfold pyLog1pJ pyLog1p at h
  cases hq : pyNum j with
  | error e => rw [hq] at h; simp [exceptBind_err] at h
  | ok q =>
    rw [hq] at h
    simp only [exceptBind_ok] at h
    split at h
    · simp at h
    · next hc =>
      simp only [Except.ok.injEq] at h
      exact ⟨q, rfl, hc, h.symm⟩

/-- The dailydev position score lies in the unit interval. -/
theorem ddPosScore_bounds (p t : Nat) :
    0 ≤ ddPosScore p t ∧ ddPosScore p t ≤ 1 := by
  unfold ddPosScore
  split
  · norm_num
  · next ht =>
    have h2 : 2 ≤ t := by omega
    have hden : (1 : ℝ) ≤ (t : ℝ) - 1 := by
      have : (2 : ℝ) ≤ (t : ℝ) := by exact_mod_cast h2
      linarith
    have hx : 0 ≤ (p : ℝ) / ((t : ℝ) - 1) :=
      div_nonneg (Nat.cast_nonneg p) (by linarith)
    constructor
    · have := le_max_left (1/10 : ℝ)
        (1 - (p : ℝ) / ((t : ℝ) - 1) * (9/10))
      linarith
    · apply max_le
      · norm_num
      · nlinarith

/-- The tubelab position score lies in the unit interval. -/
theorem ytPosScore_bounds (p t : Nat) :
    0 ≤ ytPosScore p t ∧ ytPosScore p t ≤ 1 := by
  unfold ytPosScore
  split
  · norm_num
  · next ht =>
    have h2 : 2 ≤ t := by omega
    have hden : (1 : ℝ) ≤ (t : ℝ) - 1 := by
      have : (2 : ℝ) ≤ (t : ℝ) := by exact_mod_cast h2
      linarith
    have hx : 0 ≤ (p : ℝ) / ((t : ℝ) - 1) :=
      div_nonneg (Nat.cast_nonneg p) (by linarith)
    constructor
    · have := le_max_left (1/10 : ℝ)
        (1 - (p : ℝ) / ((t : ℝ) - 1) * (9/10))
      linarith
    · apply max_le
      · norm_num
      · nlinarith

/-- A convex mix of two unit-interval values is in the unit interval. -/
theorem mix_unit (a b P M : ℝ) (ha : 0 ≤ a) (hb : 0 ≤ b) (hab : a + b = 1)
    (hP0 : 0 ≤ P) (hP1 : P ≤ 1) (hM0 : 0 ≤ M) (hM1 : M ≤ 1) :
    0 ≤ a * P + b * M ∧ a * P + b * M ≤ 1 := by
  constructor
  · have := mul_nonneg ha hP0
    have := mul_nonneg hb hM0
    linarith
  · nlinarith

/-- The final clamp of the social and discussion parse keeps the score in
the unit interval (real version). -/
theorem clamp01R (r : ℝ) : 0 ≤ min 1 (max 0 r) ∧ min 1 (max 0 r) ≤ 1 :=
  ⟨le_min (by norm_num) (le_max_left 0 r), min_le_left _ _⟩

/-- The final clamp keeps the score in the unit interval (rational
version, for the discussion parse). -/
theorem clamp01Q (r : ℚ) : 0 ≤ min 1 (max 0 r) ∧ min 1 (max 0 r) ≤ 1 :=
  ⟨le_min (by norm_num) (le_max_left 0 r), min_le_left _ _⟩

/-- With non-negative engagement inputs, dailydev's `_compute_relevance`
stays in the unit interval. -/
theorem dd_rel_bound (i total : Nat) (kvs : Dict) (rel : ℝ)
    (h : dd_compute_relevance i total kvs = .ok rel) (hok : ddEngOk kvs) :
    0 ≤ rel ∧ rel ≤ 1 := by
  obtain ⟨hrt, hup, hco⟩ := hok
  unfold dd_compute_relevance at h
  cases hq : pyNum (pyOr (dictGet kvs "readTime" (.num 0)) (.num 0)) with
  | error e => rw [hq] at h; simp [exceptBind_err] at h
  | ok rtq =>
  cases hl1 : pyLog1pJ (pyOr (dictGet kvs "upvotes" (.num 0)) (.num 0)) with
  | error e => rw [hq, hl1] at h; simp [exceptBind_ok, exceptBind_err] at h
  | ok lup =>
  cases hl2 : pyLog1pJ (pyOr (dictGet kvs "comments" (.num 0)) (.num 0)) with
  | error e =>
    rw [hq, hl1, hl2] at h; simp [exceptBind_ok, exceptBind_err] at h
  | ok lco =>
  rw [hq, hl1, hl2] at h
  simp only [exceptBind_ok, exceptPure, Except.ok.injEq] at h
  rw [← h]
  have h0rt : 0 ≤ rtq := hrt rtq hq
  obtain ⟨qu, hqu, _, hlupe⟩ := pyLog1pJ_ok _ _ hl1
  obtain ⟨qc, hqc, _, hlcoe⟩ := pyLog1pJ_ok _ _ hl2
  have hlup0 : 0 ≤ lup := by
    rw [hlupe]
    apply Real.log_nonneg
    have : (0 : ℝ) ≤ (qu : ℝ) := by exact_mod_cast hup qu hqu
    linarith
  have hlco0 : 0 ≤ lco := by
    rw [hlcoe]
    apply Real.log_nonneg
    have : (0 : ℝ) ≤ (qc : ℝ) := by exact_mod_cast hco qc hqc
    linarith
  have hrt0 : (0 : ℝ) ≤ ((min rtq 20 : ℚ) : ℝ) := by
    have : (0 : ℚ) ≤ min rtq 20 := le_min h0rt (by norm_num)
    exact_mod_cast this
  have hrt1 : ((min rtq 20 : ℚ) : ℝ) ≤ 20 := by
    have : (min rtq 20 : ℚ) ≤ 20 := min_le_right _ _
    exact_mod_cast this
  have hEng0 : 0 ≤ (55/100 : ℝ) * lup + (40/100 : ℝ) * lco +
      (5/100 : ℝ) * (((min rtq 20 : ℚ) : ℝ) / 20) := by
    have := mul_nonneg (show (0:ℝ) ≤ 55/100 by norm_num) hlup0
    have := mul_nonneg (show (0:ℝ) ≤ 40/100 by norm_num) hlco0
    have := mul_nonneg (show (0:ℝ) ≤ 5/100 by norm_num)
      (div_nonneg hrt0 (show (0:ℝ) ≤ 20 by norm_num))
    linarith
  have hM0 : 0 ≤ min (1 : ℝ) (((55/100 : ℝ) * lup + (40/100 : ℝ) * lco +
      (5/100 : ℝ) * (((min rtq 20 : ℚ) : ℝ) / 20)) / 7) :=
    le_min (by norm_num) (div_nonneg hEng0 (by norm_num))
  have hM1 : min (1 : ℝ) (((55/100 : ℝ) * lup + (40/100 : ℝ) * lco +
      (5/100 : ℝ) * (((min rtq 20 : ℚ) : ℝ) / 20)) / 7) ≤ 1 :=
    min_le_left _ _
  have hpos := ddPosScore_bounds i total
  exact mix_unit (1/2) (1/2) _ _ (by norm_num) (by norm_num) (by norm_num)
    hpos.1 hpos.2 hM0 hM1

/-- With non-negative engagement inputs, tubelab's `_compute_relevance`
stays in the unit interval. -/
theorem yt_rel_bound (i total : Nat) (kvs : Dict) (rel : ℝ)
    (h : yt_compute_relevance i total kvs = .ok rel) (hok : ytEngOk kvs) :
    0 ≤ rel ∧ rel ≤ 1 := by
  obtain ⟨hvw, hlk, hco⟩ := hok
  unfold yt_compute_relevance at h
  cases hl1 : pyLog1pJ (pyOr (dictGet kvs "views" (.num 0)) (.num 0)) with
  | error e => rw [hl1] at h; simp [exceptBind_err] at h
  | ok lv =>
  cases hl2 : pyLog1pJ (pyOr (dictGet kvs "likes" (.num 0)) (.num 0)) with
  | error e => rw [hl1, hl2] at h; simp [exceptBind_ok, exceptBind_err] at h
  | ok ll =>
  cases hl3 : pyLog1pJ (pyOr (dictGet kvs "comments" (.num 0)) (.num 0)) with
  | error e =>
    rw [hl1, hl2, hl3] at h; simp [exceptBind_ok, exceptBind_err] at h
  | ok lc =>
  rw [hl1, hl2, hl3] at h
  simp only [exceptBind_ok, exceptPure, Except.ok.injEq] at h
  rw [← h]
  obtain ⟨qv, hqv, _, hlve⟩ := pyLog1pJ_ok _ _ hl1
  obtain ⟨ql, hql, _, hlle⟩ := pyLog1pJ_ok _ _ hl2
  obtain ⟨qc, hqc, _, hlce⟩ := pyLog1pJ_ok _ _ hl3
  have hlv0 : 0 ≤ lv := by
    rw [hlve]
    apply Real.log_nonneg
    have : (0 : ℝ) ≤ (qv : ℝ) := by exact_mod_cast hvw qv hqv
    linarith
  have hll0 : 0 ≤ ll := by
    rw [hlle]
    apply Real.log_nonneg
    have : (0 : ℝ) ≤ (ql : ℝ) := by exact_mod_cast hlk ql hql
    linarith
  have hlc0 : 0 ≤ lc := by
    rw [hlce]
    apply Real.log_nonneg
    have : (0 : ℝ) ≤ (qc : ℝ) := by exact_mod_cast hco qc hqc
    linarith
  have hEng0 : 0 ≤ (50/100 : ℝ) * lv + (30/100 : ℝ) * ll +
      (20/100 : ℝ) * lc := by
    have := mul_nonneg (show (0:ℝ) ≤ 50/100 by norm_num) hlv0
    have := mul_nonneg (show (0:ℝ) ≤ 30/100 by norm_num) hll0
    have := mul_nonneg (show (0:ℝ) ≤ 20/100 by norm_num) hlc0
    linarith
  have hM0 : 0 ≤ min (1 : ℝ) (((50/100 : ℝ) * lv + (30/100 : ℝ) * ll +
      (20/100 : ℝ) * lc) / 14) :=
    le_min (by norm_num) (div_nonneg hEng0 (by norm_num))
  have hM1 : min (1 : ℝ) (((50/100 : ℝ) * lv + (30/100 : ℝ) * ll +
      (20/100 : ℝ) * lc) / 14) ≤ 1 :=
    min_le_left _ _
  have hpos := ytPosScore_bounds i total
  exact mix_unit (4/10) (6/10) _ _ (by norm_num) (by norm_num) (by norm_num)
    hpos.1 hpos.2 hM0 hM1

/-- Amended claim C1: the discussion and social parses clamp every item's
relevance into `[0, 1]` unconditionally; the article and video parses
produce relevance in `[0, 1]` provided the engagement inputs
(readTime/upvotes/comments resp. views/likes/comments) of every post of
the response are non-negative. -/
theorem relevance_in_unit_interval :
    (∀ (extract : Dict → List Json) (response : Dict)
        (out : List RedditItem),
      parse_reddit_response extract response = .ok out →
      ∀ it ∈ out, 0 ≤ it.relevance ∧ it.relevance ≤ 1) ∧
    (∀ (twFmt : String → Option (Fin 10000 × Fin 13 × Fin 32))
        (response : Dict) (out : List XItem),
      parse_x_response twFmt response = .ok out →
      ∀ it ∈ out, 0 ≤ it.relevance ∧ it.relevance ≤ 1) ∧
    (∀ (response : Dict) (out : List DDItem),
      parse_dailydev_response response = .ok out →
      (∀ kvs, Json.obj kvs ∈ ddPostsOf response → ddEngOk kvs) →
      ∀ it ∈ out, 0 ≤ it.relevance ∧ it.relevance ≤ 1) ∧
    (∀ (response : Dict) (out : List YTItem),
      parse_youtube_response response = .ok out →
      (∀ kvs, Json.obj kvs ∈ ytVideosOf response → ytEngOk kvs) →
      ∀ it ∈ out, 0 ≤ it.relevance ∧ it.relevance ≤ 1) := by
  refine ⟨?_, ?_, ?_, ?_⟩
  · intro extract response out h it hit
    obtain ⟨j, x, _, hx⟩ := cleanLoop_mem redditCleanItem
      (extract response) 0 out h it hit
    obtain ⟨_, rel, hrel⟩ := redditCleanItem_props j x it hx
    rw [hrel]
    exact clamp01Q rel
  · intro twFmt response out h it hit
    obtain ⟨j, x, _, hx⟩ := parse_x_mem twFmt response out h it hit
    obtain ⟨kvs, _, ⟨r, hr⟩, _⟩ := xCleanItem_props twFmt j _ x it hx
    rw [hr]
    exact clamp01R r
  · intro response out h hok it hit
    obtain ⟨j, x, hxm, hx⟩ := parse_dd_mem response out h it hit
    obtain ⟨kvs, hkvs, ⟨rel, hr, hrel⟩, _, _⟩ := ddCleanItem_props j _ x it hx
    subst hkvs
    rw [hrel]
    exact dd_rel_bound j _ kvs rel hr (hok kvs hxm)
  · intro response out h hok it hit
    obtain ⟨j, x, hxm, hx⟩ := parse_yt_mem response out h it hit
    obtain ⟨kvs, hkvs, ⟨rel, hr, hrel⟩, _, _⟩ := ytCleanItem_props j _ x it hx
    subst hkvs
    rw [hrel]
    exact yt_rel_bound j _ kvs rel hr (hok kvs hxm)

/-- Value of a fallible computation, with a default for the error case. -/
def exGetD {e a : Type} (x : Except e a) (d : a) : a :=
  match x with
  | .ok v => v
  | .error _ => d

/-- First post of the C1 counterexample response: benign. -/
def ddGoodPost : Json := .obj [("title", .str "a"), ("url", .str "u1")]

/-- Second post of the C1 counterexample response: a negative `readTime`
drives `_compute_relevance` below zero at the last position. -/
def ddBadPost : Json :=
  .obj [("title", .str "b"), ("url", .str "u2"),
    ("readTime", .num (-10000))]

/-- The C1 counterexample response. -/
def ddC1resp : Dict := [("posts", .arr [ddGoodPost, ddBadPost])]

/-- Placeholder item for total projections. -/
noncomputable def ddDummy : DDItem :=
  ⟨"", "", "", .null, .null, .null, .null, .null, .null, .null, none, "", 0⟩

/-- The relevance of the `k`-th item of a parsed dailydev response (0 on
error or out of range). -/
noncomputable def ddRelevanceAt (resp : Dict) (k : Nat) : ℝ :=
  ((exGetD (parse_dailydev_response resp) []).getD k ddDummy).relevance

/-- Counterexample to claim C1: `parse_dailydev_response` returns an item
whose relevance is negative (readTime −10000, last of two posts:
relevance = 1/2·0.1 + 1/2·(−25/7) = −243/140). -/
theorem relevance_in_unit_interval_cex : ddRelevanceAt ddC1resp 1 < 0 := by
  have hE : ("" : String).isEmpty = true := by decide
  have hrel0 : dd_compute_relevance 0 2 [("title", Json.str "a"),
      ("url", Json.str "u1")] = .ok (1/2 : ℝ) := by
    unfold dd_compute_relevance ddPosScore
    simp [dictGet, List.lookup, pyOr, pyTruthy, pyNum, pyLog1pJ, pyLog1p,
      exceptBind_ok, exceptBindF_ok, exceptPure, Real.log_one]
    norm_num [exceptBind_ok, exceptBindF_ok, exceptPure, min_def, max_def]
  have hrel1 : dd_compute_relevance 1 2 [("title", Json.str "b"),
      ("url", Json.str "u2"), ("readTime", Json.num (-10000))]
      = .ok (-(243/140) : ℝ) := by
    unfold dd_compute_relevance ddPosScore
    simp [dictGet, List.lookup, pyOr, pyTruthy, pyNum, pyLog1pJ, pyLog1p,
      exceptBind_ok, exceptBindF_ok, exceptPure, Real.log_one]
    norm_num [exceptBind_ok, exceptBindF_ok, exceptPure, min_def, max_def]
  have hA : ("a" : String).isEmpty = false := by decide
  have hB : ("b" : String).isEmpty = false := by decide
  have hU1 : ("u1" : String).isEmpty = false := by decide
  have hU2 : ("u2" : String).isEmpty = false := by decide
  have hparse : parse_dailydev_response ddC1resp =
      .ok [⟨"DD" ++ toString 1, "a", "u1", .str "", .str "", .str "", .null,
        .str "", .arr [], .null, none, "", (1/2 : ℝ)⟩,
      ⟨"DD" ++ toString 2, "b", "u2", .str "", .str "", .str "", .null,
        .str "", .arr [], .num (-10000), none, "", (-(243/140) : ℝ)⟩] := by
    simp [parse_dailydev_response, ddC1resp, ddGoodPost, ddBadPost,
      ddCleanLoop, cleanLoop, ddCleanItem, dictGet, List.lookup, pyStripJ,
      pyStrip, pyTruthy, pyOr, isoDateSlice, pyGetAttrGet, jsonElems, hrel0,
      hrel1, hE, hA, hB, hU1, hU2, exceptBind_ok, exceptBindF_ok, exceptPure]
  unfold ddRelevanceAt
  rw [hparse]
  norm_num [exGetD, List.getD]

/-- Placeholder reddit item for total projections. -/
def redditDummy : RedditItem := ⟨"", "", "", "", .null, "", 0⟩

/-- A Twitter-format oracle that never matches. -/
def twNone : String → Option (Fin 10000 × Fin 13 × Fin 32) := fun _ => none

/-- Placeholder X item for total projections. -/
noncomputable def xDummy : XItem := ⟨"", "", .null, "", none, ⟨0, 0, 0, 0⟩, "", 0⟩

/-- Placeholder tubelab item for total projections. -/
noncomputable def ytDummy : YTItem :=
  ⟨"", "", "", .null, .null, .null, .null, .null, none, "", 0⟩

/-- The relevance of the `k`-th item of a parsed X response (0 on error
or out of range; Twitter-format dates never match). -/
noncomputable def xRelevanceAt (resp : Dict) (k : Nat) : ℝ :=
  ((exGetD (parse_x_response twNone resp) []).getD k xDummy).relevance

/-- The relevance of the `k`-th item of a parsed tubelab response. -/
noncomputable def ytRelevanceAt (resp : Dict) (k : Nat) : ℝ :=
  ((exGetD (parse_youtube_response resp) []).getD k ytDummy).relevance

/-- Reddit witness payload item. -/
def rw1Json : Json :=
  .obj [("title", .str "T"), ("url", .str "https://reddit.com/r/w")]

/-- X witness response. -/
def xWitResp : Dict := [("tweets", .arr [.obj [("url", .str "u")]])]

/-- Dailydev witness response. -/
def ddWitResp : Dict := [("posts", .arr [ddGoodPost])]

/-- Tubelab witness response. -/
def ytWitResp : Dict :=
  [("videos", .arr [.obj [("title", .str "t"), ("id", .str "v1")]])]

/-- Parse of the dailydev witness response. -/
theorem ddWitResp_parse : parse_dailydev_response ddWitResp =
    .ok [⟨"DD" ++ toString 1, "a", "u1", .str "", .str "", .str "",
      .null, .str "", .arr [], .null, none, "", (1/2 : ℝ)⟩] := by
  have hE : ("" : String).isEmpty = true := by decide
  have hA : ("a" : String).isEmpty = false := by decide
  have hU1 : ("u1" : String).isEmpty = false := by decide
  have hrel0 : dd_compute_relevance 0 1 [("title", Json.str "a"),
      ("url", Json.str "u1")] = .ok (1/2 : ℝ) := by
    unfold dd_compute_relevance ddPosScore
    simp [dictGet, List.lookup, pyOr, pyTruthy, pyNum, pyLog1pJ, pyLog1p,
      exceptBind_ok, exceptBindF_ok, exceptPure, Real.log_one]
    norm_num [exceptBind_ok, exceptBindF_ok, exceptPure, min_def, max_def]
  simp [parse_dailydev_response, ddWitResp, ddGoodPost, ddCleanLoop,
    cleanLoop, ddCleanItem, dictGet, List.lookup, pyStripJ, pyStrip,
    pyTruthy, pyOr, isoDateSlice, pyGetAttrGet, jsonElems, hrel0, hE,
    hA, hU1, exceptBind_ok, exceptBindF_ok, exceptPure]

/-- Parse of the X witness response. -/
theorem xWitResp_parse : parse_x_response twNone xWitResp =
    .ok [⟨"X" ++ toString 1, "", Json.str "u", "", none, ⟨0, 0, 0, 0⟩,
      "", min 1 (max 0 (3/5 : ℝ))⟩] := by
  have hE : ("" : String).isEmpty = true := by decide
  have hU : ("u" : String).isEmpty = false := by decide
  have hT5 : ("" : String).take 500 = "" := by
    rw [String.take_eq]
    rfl
  have hL : lstripSet ['@'] "" = "" := by decide
  have hI0 : pyInt (Json.num 0) = .ok 0 := by norm_num [pyInt]
  have hrel : x_compute_relevance 0 1 [("url", Json.str "u")]
      = .ok (3/5 : ℝ) := by
    unfold x_compute_relevance
    simp [dictGet, List.lookup, pyOr, pyTruthy, pyNum, X_WEIGHTS,
      exceptBind_ok, exceptBindF_ok, exceptPure, Real.log_one]
    norm_num [exceptBind_ok, exceptBindF_ok, exceptPure, min_def, max_def]
  simp [parse_x_response, xWitResp, xCleanLoop, cleanLoop, xCleanItem,
    dictGet, List.lookup, pyStrip, pyStr, pyTruthy, pyOr, jsonElems,
    x_parse_created_at, twNone, hrel, hE, hU, hT5, hL, hI0,
    exceptBind_ok, exceptBindF_ok, exceptPure]

/-- Parse of the tubelab witness response. -/
theorem ytWitResp_parse : parse_youtube_response ytWitResp =
    .ok [⟨"YT" ++ toString 1, "t",
      "https://www.youtube.com/watch?v=" ++ "v1", .str "", .str "",
      .null, .null, .str "", none, "", (2/5 : ℝ)⟩] := by
  have hE : ("" : String).isEmpty = true := by decide
  have hT : ("t" : String).isEmpty = false := by decide
  have hV : ("v1" : String).isEmpty = false := by decide
  have hrel : yt_compute_relevance 0 1 [("title", Json.str "t"),
      ("id", Json.str "v1")] = .ok (2/5 : ℝ) := by
    unfold yt_compute_relevance ytPosScore
    simp [dictGet, List.lookup, pyOr, pyTruthy, pyNum, pyLog1pJ, pyLog1p,
      exceptBind_ok, exceptBindF_ok, exceptPure, Real.log_one]
    norm_num [exceptBind_ok, exceptBindF_ok, exceptPure, min_def, max_def]
  simp [parse_youtube_response, ytWitResp, ytCleanLoop, cleanLoop,
    ytCleanItem, dictGet, List.lookup, pyStripJ, pyStrip, pyStr,
    pyTruthy, pyOr, isoDateSlice, jsonElems, hrel, hE, hT, hV,
    exceptBind_ok, exceptBindF_ok, exceptPure]

/-- Witness for the amended claim C1: bounds instantiated on concrete
benign payloads for all four adapters. -/
theorem relevance_in_unit_interval_witness :
    (0 ≤ (min 1 (max 0 (1/2 : ℚ))) ∧ (min 1 (max 0 (1/2 : ℚ))) ≤ 1) ∧
    (0 ≤ ddRelevanceAt ddWitResp 0 ∧ ddRelevanceAt ddWitResp 0 ≤ 1) ∧
    (0 ≤ xRelevanceAt xWitResp 0 ∧ xRelevanceAt xWitResp 0 ≤ 1) ∧
    (0 ≤ ytRelevanceAt ytWitResp 0 ∧ ytRelevanceAt ytWitResp 0 ≤ 1) := by
  refine ⟨?_, ?_, ?_, ?_⟩
  · have hparse : parse_reddit_response (fun _ => [rw1Json]) [] =
        .ok [⟨"R1", "T", "https://reddit.com/r/w", "", Json.null, "",
          min 1 (max 0 (1/2))⟩] := rfl
    exact relevance_in_unit_interval.1 (fun _ => [rw1Json]) []
      [⟨"R1", "T", "https://reddit.com/r/w", "", Json.null, "",
        min 1 (max 0 (1/2))⟩] hparse
      ⟨"R1", "T", "https://reddit.com/r/w", "", Json.null, "",
        min 1 (max 0 (1/2))⟩ (List.mem_singleton.mpr rfl)
  · have hok : ∀ kvs, Json.obj kvs ∈ ddPostsOf ddWitResp → ddEngOk kvs := by
      intro kvs hm
      simp [ddPostsOf, ddWitResp, ddGoodPost, dictGet, List.lookup,
        jsonElems] at hm
      subst hm
      refine ⟨?_, ?_, ?_⟩ <;> intro q hq <;>
        simp [dictGet, List.lookup, pyOr, pyTruthy, pyNum] at hq <;>
        rw [← hq]
    have hb := relevance_in_unit_interval.2.2.1 ddWitResp
      [⟨"DD" ++ toString 1, "a", "u1", .str "", .str "", .str "",
        .null, .str "", .arr [], .null, none, "", (1/2 : ℝ)⟩]
      ddWitResp_parse hok
      ⟨"DD" ++ toString 1, "a", "u1", .str "", .str "", .str "",
        .null, .str "", .arr [], .null, none, "", (1/2 : ℝ)⟩
      (List.mem_singleton.mpr rfl)
    have hat : ddRelevanceAt ddWitResp 0 = (1/2 : ℝ) := by
      unfold ddRelevanceAt
      rw [ddWitResp_parse]
      norm_num [exGetD, List.getD]
    rw [hat]
    exact hb
  · have hb := relevance_in_unit_interval.2.1 twNone xWitResp
      [⟨"X" ++ toString 1, "", Json.str "u", "", none, ⟨0, 0, 0, 0⟩,
        "", min 1 (max 0 (3/5 : ℝ))⟩] xWitResp_parse
      ⟨"X" ++ toString 1, "", Json.str "u", "", none, ⟨0, 0, 0, 0⟩,
        "", min 1 (max 0 (3/5 : ℝ))⟩ (List.mem_singleton.mpr rfl)
    have hat : xRelevanceAt xWitResp 0 = min 1 (max 0 (3/5 : ℝ)) := by
      unfold xRelevanceAt
      rw [xWitResp_parse]
      norm_num [exGetD, List.getD]
    rw [hat]
    exact hb
  · have hok : ∀ kvs, Json.obj kvs ∈ ytVideosOf ytWitResp → ytEngOk kvs := by
      intro kvs hm
      simp [ytVideosOf, ytWitResp, dictGet, List.lookup, jsonElems] at hm
      subst hm
      refine ⟨?_, ?_, ?_⟩ <;> intro q hq <;>
        simp [dictGet, List.lookup, pyOr, pyTruthy, pyNum] at hq <;>
        rw [← hq]
    have hb := relevance_in_unit_interval.2.2.2 ytWitResp
      [⟨"YT" ++ toString 1, "t", "https://www.youtube.com/watch?v=" ++ "v1",
        .str "", .str "", .null, .null, .str "", none, "", (2/5 : ℝ)⟩]
      ytWitResp_parse hok
      ⟨"YT" ++ toString 1, "t", "https://www.youtube.com/watch?v=" ++ "v1",
        .str "", .str "", .null, .null, .str "", none, "", (2/5 : ℝ)⟩
      (List.mem_singleton.mpr rfl)
    have hat : ytRelevanceAt ytWitResp 0 = (2/5 : ℝ) := by
      unfold ytRelevanceAt
      rw [ytWitResp_parse]
      norm_num [exGetD, List.getD]
    rw [hat]
    exact hb

/-- Amended claim C6: no adapter nulls calendar-invalid dates.  The
discussion parse nulls a truthy date only when its rendering fails the
shape regex `\d\d\d\d-\d\d-\d\d` (so any truthy surviving date is
digit-shaped); X's `_parse_created_at` returns `None` or a digit-shaped
string; the article and video parses perform no validation at all: the
output date is null or the raw first-ten-element slice of
`createdAt`/`publishedAt`. -/
theorem malformed_date_handling :
    (∀ (extract : Dict → List Json) (response : Dict)
        (out : List RedditItem),
      parse_reddit_response extract response = .ok out →
      ∀ it ∈ out, pyTruthy it.date = true →
        matchYMDall (pyStr it.date) = true) ∧
    (∀ (twFmt : String → Option (Fin 10000 × Fin 13 × Fin 32)) (j : Json)
        (s : String),
      x_parse_created_at twFmt j = some s → matchYMDall s = true) ∧
    (∀ (response : Dict) (out : List DDItem),
      parse_dailydev_response response = .ok out →
      ∀ it ∈ out, it.date = Json.null ∨
        ∃ kvs, Json.obj kvs ∈ ddPostsOf response ∧
          pySlice10 (dictGet kvs "createdAt" (.str "")) = .ok it.date) ∧
    (∀ (response : Dict) (out : List YTItem),
      parse_youtube_response response = .ok out →
      ∀ it ∈ out, it.date = Json.null ∨
        ∃ kvs, Json.obj kvs ∈ ytVideosOf response ∧
          pySlice10 (dictGet kvs "publishedAt" (.str "")) = .ok it.date) := by
  refine ⟨?_, ?_, ?_, ?_⟩
  · intro extract response out h it hit htr
    obtain ⟨j, x, _, hx⟩ := cleanLoop_mem redditCleanItem
      (extract response) 0 out h it hit
    exact (redditCleanItem_props j x it hx).1 htr
  · intro twFmt j s h
    exact x_parse_created_at_shape twFmt j s h
  · intro response out h it hit
    obtain ⟨j, x, hxm, hx⟩ := parse_dd_mem response out h it hit
    obtain ⟨kvs, hkvs, _, hdate, _⟩ := ddCleanItem_props j _ x it hx
    subst hkvs
    rcases hdate with hnull | hslice
    · left; exact hnull
    · right; exact ⟨kvs, hxm, hslice⟩
  · intro response out h it hit
    obtain ⟨j, x, hxm, hx⟩ := parse_yt_mem response out h it hit
    obtain ⟨kvs, hkvs, _, hdate, _⟩ := ytCleanItem_props j _ x it hx
    subst hkvs
    rcases hdate with hnull | hslice
    · left; exact hnull
    · right; exact ⟨kvs, hxm, hslice⟩

/-- Witness for the amended claim C6, instantiated on the shape-valid but
calendar-invalid reddit date, a concrete ISO X date, and the witness
article/video responses whose items carry no date. -/
theorem malformed_date_handling_witness :
    matchYMDall (pyStr (Json.str "2026-13-99")) = true ∧
    matchYMDall "2026-01-15" = true ∧
    ((⟨"DD" ++ toString 1, "a", "u1", Json.str "", Json.str "",
        Json.str "", Json.null, Json.str "", Json.arr [], Json.null, none,
        "", (1/2 : ℝ)⟩ : DDItem).date = Json.null ∨
      ∃ kvs, Json.obj kvs ∈ ddPostsOf ddWitResp ∧
        pySlice10 (dictGet kvs "createdAt" (.str "")) = .ok Json.null) := by
  refine ⟨?_, ?_, ?_⟩
  · have hparse : parse_reddit_response (fun _ => [c6Item]) [] =
        .ok [⟨"R1", "T", "https://reddit.com/r/x", "",
          Json.str "2026-13-99", "", min 1 (max 0 (1/2))⟩] := rfl
    exact malformed_date_handling.1 (fun _ => [c6Item]) []
      [⟨"R1", "T", "https://reddit.com/r/x", "",
        Json.str "2026-13-99", "", min 1 (max 0 (1/2))⟩] hparse
      ⟨"R1", "T", "https://reddit.com/r/x", "",
        Json.str "2026-13-99", "", min 1 (max 0 (1/2))⟩
      (List.mem_singleton.mpr rfl) (by decide)
  · exact malformed_date_handling.2.1 twNone (Json.str "2026-01-15")
      "2026-01-15" rfl
  · exact malformed_date_handling.2.2.1 ddWitResp
      [⟨"DD" ++ toString 1, "a", "u1", Json.str "", Json.str "",
        Json.str "", Json.null, Json.str "", Json.arr [], Json.null, none,
        "", (1/2 : ℝ)⟩] ddWitResp_parse
      ⟨"DD" ++ toString 1, "a", "u1", Json.str "", Json.str "",
        Json.str "", Json.null, Json.str "", Json.arr [], Json.null, none,
        "", (1/2 : ℝ)⟩ (List.mem_singleton.mpr rfl)

/-- The engagement mapping of the `k`-th item of a parsed X response. -/
noncomputable def xEngAt (resp : Dict) (k : Nat) : XEng :=
  ((exGetD (parse_x_response twNone resp) []).getD k xDummy).engagement

/-- The C8 counterexample response: a tweet with `likeCount` −5. -/
def xC8resp : Dict :=
  [("tweets", .arr [.obj [("url", .str "u"), ("likeCount", .num (-5))]])]

/-- Counterexample to claim C8: `parse_x_response` copies the negative
counter `likeCount = -5` into the output engagement mapping via
`int(x or 0)`. -/
theorem engagement_counters_cex :
    (xEngAt xC8resp 0).likes = -5 ∧ (xEngAt xC8resp 0).likes < 0 := by
  have hE : ("" : String).isEmpty = true := by decide
  have hU : ("u" : String).isEmpty = false := by decide
  have hT5 : ("" : String).take 500 = "" := by
    rw [String.take_eq]
    rfl
  have hL : lstripSet ['@'] "" = "" := by decide
  have hI0 : pyInt (Json.num 0) = .ok 0 := by norm_num [pyInt]
  have hI5 : pyInt (Json.num (-5)) = .ok (-5) := by norm_num [pyInt]
  have hrel : x_compute_relevance 0 1 [("url", Json.str "u"),
      ("likeCount", Json.num (-5))] = .ok (3/5 : ℝ) := by
    unfold x_compute_relevance
    simp [dictGet, List.lookup, pyOr, pyTruthy, pyNum, X_WEIGHTS,
      exceptBind_ok, exceptBindF_ok, exceptPure]
    norm_num [exceptBind_ok, exceptBindF_ok, exceptPure, min_def, max_def,
      Real.log_one]
  have hparse : parse_x_response twNone xC8resp =
      .ok [⟨"X" ++ toString 1, "", Json.str "u", "", none, ⟨-5, 0, 0, 0⟩,
        "", min 1 (max 0 (3/5 : ℝ))⟩] := by
    simp [parse_x_response, xC8resp, xCleanLoop, cleanLoop, xCleanItem,
      dictGet, List.lookup, pyStrip, pyStr, pyTruthy, pyOr, jsonElems,
      x_parse_created_at, twNone, hrel, hE, hU, hT5, hL, hI0, hI5,
      exceptBind_ok, exceptBindF_ok, exceptPure]
  have hat : xEngAt xC8resp 0 = ⟨-5, 0, 0, 0⟩ := by
    unfold xEngAt
    rw [hparse]
    norm_num [exGetD, List.getD]
  rw [hat]
  exact ⟨rfl, by norm_num⟩

/-- Non-negativity of the X counters under the code's own `int(x or 0)`
coercion. -/
def xCountsOk (kvs : Dict) : Prop :=
  (∀ n : Int, pyInt (pyOr (dictGet kvs "likeCount" (.num 0)) (.num 0))
    = .ok n → 0 ≤ n) ∧
  (∀ n : Int, pyInt (pyOr (dictGet kvs "retweetCount" (.num 0)) (.num 0))
    = .ok n → 0 ≤ n) ∧
  (∀ n : Int, pyInt (pyOr (dictGet kvs "replyCount" (.num 0)) (.num 0))
    = .ok n → 0 ≤ n) ∧
  (∀ n : Int, pyInt (pyOr (dictGet kvs "quoteCount" (.num 0)) (.num 0))
    = .ok n → 0 ≤ n)

/-- A raw counter value that is null or a non-negative integer. -/
def nullOrNonneg (j : Json) : Prop :=
  j = Json.null ∨ ∃ n : ℕ, j = Json.num (n : ℚ)

/-- Amended claim C8: engagement counters are copied from the input (X
coerces them with `int(x or 0)`; dailydev/tubelab copy the raw values or
omit the mapping), so they are null or non-negative integers exactly when
the corresponding input counters are. -/
theorem engagement_counters :
    (∀ (twFmt : String → Option (Fin 10000 × Fin 13 × Fin 32))
        (response : Dict) (out : List XItem),
      parse_x_response twFmt response = .ok out →
      (∀ kvs, Json.obj kvs ∈ xTweetsOf response → xCountsOk kvs) →
      ∀ it ∈ out, 0 ≤ it.engagement.likes ∧ 0 ≤ it.engagement.reposts ∧
        0 ≤ it.engagement.replies ∧ 0 ≤ it.engagement.quotes) ∧
    (∀ (response : Dict) (out : List DDItem),
      parse_dailydev_response response = .ok out →
      (∀ kvs, Json.obj kvs ∈ ddPostsOf response →
        nullOrNonneg (dictGet kvs "upvotes" Json.null) ∧
        nullOrNonneg (dictGet kvs "comments" Json.null)) →
      ∀ it ∈ out, it.engagement = none ∨
        ∃ u c, it.engagement = some (u, c) ∧ nullOrNonneg u ∧
          nullOrNonneg c) ∧
    (∀ (response : Dict) (out : List YTItem),
      parse_youtube_response response = .ok out →
      (∀ kvs, Json.obj kvs ∈ ytVideosOf response →
        nullOrNonneg (dictGet kvs "views" Json.null) ∧
        nullOrNonneg (dictGet kvs "likes" Json.null) ∧
        nullOrNonneg (dictGet kvs "comments" Json.null)) →
      ∀ it ∈ out, it.engagement = none ∨
        ∃ v l c, it.engagement = some (v, l, c) ∧ nullOrNonneg v ∧
          nullOrNonneg l ∧ nullOrNonneg c) := by
  refine ⟨?_, ?_, ?_⟩
  · intro twFmt response out h hok it hit
    obtain ⟨j, x, hxm, hx⟩ := parse_x_mem twFmt response out h it hit
    obtain ⟨kvs, hkvs, _, l, r, p, q, hl, hr, hp, hq, heng⟩ :=
      xCleanItem_props twFmt j _ x it hx
    subst hkvs
    obtain ⟨c1, c2, c3, c4⟩ := hok kvs hxm
    rw [heng]
    exact ⟨c1 l hl, c2 r hr, c3 p hp, c4 q hq⟩
  · intro response out h hok it hit
    obtain ⟨j, x, hxm, hx⟩ := parse_dd_mem response out h it hit
    obtain ⟨kvs, hkvs, _, _, heng⟩ := ddCleanItem_props j _ x it hx
    subst hkvs
    rcases heng with hnone | hpair
    · left; exact hnone
    · right
      obtain ⟨hu, hc⟩ := hok kvs hxm
      exact ⟨_, _, hpair, hu, hc⟩
  · intro response out h hok it hit
    obtain ⟨j, x, hxm, hx⟩ := parse_yt_mem response out h it hit
    obtain ⟨kvs, hkvs, _, _, heng⟩ := ytCleanItem_props j _ x it hx
    subst hkvs
    rcases heng with hnone | htriple
    · left; exact hnone
    · right
      obtain ⟨hv, hl, hc⟩ := hok kvs hxm
      exact ⟨_, _, _, htriple, hv, hl, hc⟩

/-- Witness for the amended claim C8: the X witness tweet has all-zero
coerced counters; the article and video witness items omit the
engagement mapping. -/
theorem engagement_counters_witness :
    (0 ≤ (⟨0, 0, 0, 0⟩ : XEng).likes ∧ 0 ≤ (⟨0, 0, 0, 0⟩ : XEng).reposts ∧
      0 ≤ (⟨0, 0, 0, 0⟩ : XEng).replies ∧
      0 ≤ (⟨0, 0, 0, 0⟩ : XEng).quotes) ∧
    ((none : Option (Json × Json)) = none ∨
      ∃ u c, (none : Option (Json × Json)) = some (u, c) ∧ nullOrNonneg u ∧
        nullOrNonneg c) ∧
    ((none : Option (Json × Json × Json)) = none ∨
      ∃ v l c, (none : Option (Json × Json × Json)) = some (v, l, c) ∧
        nullOrNonneg v ∧ nullOrNonneg l ∧ nullOrNonneg c) := by
  have hI0 : pyInt (Json.num 0) = .ok 0 := by norm_num [pyInt]
  refine ⟨?_, ?_, ?_⟩
  · have hok : ∀ kvs, Json.obj kvs ∈ xTweetsOf xWitResp → xCountsOk kvs := by
      intro kvs hm
      simp [xTweetsOf, xWitResp, dictGet, List.lookup, jsonElems] at hm
      subst hm
      refine ⟨?_, ?_, ?_, ?_⟩ <;> intro n hn <;>
        simp [dictGet, List.lookup, pyOr, pyTruthy, hI0] at hn <;>
        rw [← hn]
    exact engagement_counters.1 twNone xWitResp
      [⟨"X" ++ toString 1, "", Json.str "u", "", none, ⟨0, 0, 0, 0⟩,
        "", min 1 (max 0 (3/5 : ℝ))⟩] xWitResp_parse hok
      ⟨"X" ++ toString 1, "", Json.str "u", "", none, ⟨0, 0, 0, 0⟩,
        "", min 1 (max 0 (3/5 : ℝ))⟩ (List.mem_singleton.mpr rfl)
  · have hok : ∀ kvs, Json.obj kvs ∈ ddPostsOf ddWitResp →
        nullOrNonneg (dictGet kvs "upvotes" Json.null) ∧
        nullOrNonneg (dictGet kvs "comments" Json.null) := by
      intro kvs hm
      simp [ddPostsOf, ddWitResp, ddGoodPost, dictGet, List.lookup,
        jsonElems] at hm
      subst hm
      constructor <;> left <;> rfl
    exact engagement_counters.2.1 ddWitResp
      [⟨"DD" ++ toString 1, "a", "u1", Json.str "", Json.str "",
        Json.str "", Json.null, Json.str "", Json.arr [], Json.null, none,
        "", (1/2 : ℝ)⟩] ddWitResp_parse hok
      ⟨"DD" ++ toString 1, "a", "u1", Json.str "", Json.str "",
        Json.str "", Json.null, Json.str "", Json.arr [], Json.null, none,
        "", (1/2 : ℝ)⟩ (List.mem_singleton.mpr rfl)
  · have hok : ∀ kvs, Json.obj kvs ∈ ytVideosOf ytWitResp →
        nullOrNonneg (dictGet kvs "views" Json.null) ∧
        nullOrNonneg (dictGet kvs "likes" Json.null) ∧
        nullOrNonneg (dictGet kvs "comments" Json.null) := by
      intro kvs hm
      simp [ytVideosOf, ytWitResp, dictGet, List.lookup, jsonElems] at hm
      subst hm
      refine ⟨?_, ?_, ?_⟩ <;> left <;> rfl
    exact engagement_counters.2.2 ytWitResp
      [⟨"YT" ++ toString 1, "t", "https://www.youtube.com/watch?v=" ++ "v1",
        .str "", .str "", .null, .null, .str "", none, "", (2/5 : ℝ)⟩]
      ytWitResp_parse hok
      ⟨"YT" ++ toString 1, "t", "https://www.youtube.com/watch?v=" ++ "v1",
        .str "", .str "", .null, .null, .str "", none, "", (2/5 : ℝ)⟩
      (List.mem_singleton.mpr rfl)

end L30
